import Mathlib

/-!
# Exam-question chat bot: webhook handler

A shallow embedding of the two handler variants of the repository,
`src/terra/internal/index.go` (namespace `Terra`) and `src/internal/main.go`
(namespace `Internal`), and theorems about them.

Modelling conventions.

* A Go `string` is a sequence of bytes (`GoString`); `len` is the byte length and
  slicing is by byte offsets.  String constants are written as UTF-8 text and
  converted with `goStr`.
* `int64` and `int` values are only stored and compared, never computed with, so
  they are integers.
* A Go `error` is represented by its message text; `fmt.Errorf("p: %w", err)` is the
  message `p: ` followed by the message of `err`.
* Everything outside the process (environment variables, the file system, the
  `curl` child process, the HTTP services) and the standard-library codecs
  (`encoding/json`, `encoding/base64`, `path.Join`) are fields of a `World`.
  The answers of the effectful fields may depend on the whole transcript of earlier
  interactions, so a world can answer the same call differently the second time.
* Every function threads a `Trace`, the transcript of its interactions (call and
  answer), oldest first.  Calls to `log` and `fmt.Printf` write diagnostics only and
  are left out of the transcript.
* `json.Marshal` cannot fail on the request structs used here (strings, integers,
  a boolean, a float constant) and `http.NewRequest` cannot fail on the constant method
  and URLs used here, so their error branches are unreachable and are not modelled.
* An HTTP request is recorded with the JSON document `json.Marshal` puts in its body,
  given as the field values a JSON reader decodes from it: numbers and booleans are
  the ones of the Go struct, and every string is the Go string with each byte that is
  not part of a valid UTF-8 sequence replaced by U+FFFD (`jsonString`), which is what
  `encoding/json` writes for it.
-/

set_option maxRecDepth 100000

/-! ## Strings and errors -/

/-- A Go string: an immutable sequence of bytes. -/
abbrev GoString := List UInt8

/-- The bytes of a string constant of the source (UTF-8). -/
def goStr (s : String) : GoString := s.data.flatMap String.utf8EncodeChar

/-- A Go `error`, represented by the text of `err.Error()`. -/
abbrev GoError := GoString

/-- The message built by `fmt.Errorf(msg + ": %w", err)`. -/
def wrapError (msg : String) (err : GoError) : GoError := goStr msg ++ goStr ": " ++ err

/-! ## Strings in JSON documents

The encoder of `encoding/json` walks a Go string rune by rune with
`utf8.DecodeRuneInString`; a byte at which no valid UTF-8 sequence starts is written as
the escape of U+FFFD and the walk resumes at the next byte.  All other escapes it writes
stand for the bytes they replace. -/

/-- The length a lead byte announces for its UTF-8 sequence (table `first` of
`unicode/utf8`); 0 for a byte that cannot start a sequence. -/
def leadSize (b0 : UInt8) : Nat :=
  if b0 < 0x80 then 1
  else if 0xC2 ≤ b0 ∧ b0 ≤ 0xDF then 2
  else if 0xE0 ≤ b0 ∧ b0 ≤ 0xEF then 3
  else if 0xF0 ≤ b0 ∧ b0 ≤ 0xF4 then 4
  else 0

/-- The second byte `b1` is accepted after the lead byte `b0` (table `acceptRanges` of
`unicode/utf8`). -/
def secondOk (b0 b1 : UInt8) : Bool :=
  if b0 = 0xE0 then 0xA0 ≤ b1 && b1 ≤ 0xBF
  else if b0 = 0xED then 0x80 ≤ b1 && b1 ≤ 0x9F
  else if b0 = 0xF0 then 0x90 ≤ b1 && b1 ≤ 0xBF
  else if b0 = 0xF4 then 0x80 ≤ b1 && b1 ≤ 0x8F
  else 0x80 ≤ b1 && b1 ≤ 0xBF

/-- The byte is a continuation byte, `0x80..0xBF`. -/
def contOk (b : UInt8) : Bool := 0x80 ≤ b && b ≤ 0xBF

/-- The size `utf8.DecodeRuneInString` reports for the sequence at the head of the
string when that sequence is valid, and 0 when it reports `RuneError` (an empty string,
a byte that cannot start a sequence, a sequence cut short or a byte out of range). -/
def runeSize : GoString → Nat
  | [] => 0
  | b0 :: t =>
    match leadSize b0, t with
    | 1, _ => 1
    | 2, b1 :: _ => if secondOk b0 b1 then 2 else 0
    | 3, b1 :: b2 :: _ => if secondOk b0 b1 && contOk b2 then 3 else 0
    | 4, b1 :: b2 :: b3 :: _ => if secondOk b0 b1 && contOk b2 && contOk b3 then 4 else 0
    | _, _ => 0

/-- The walk of the JSON encoder over a string, `pending` bytes of the current valid
sequence still to be copied: a byte at which no valid sequence starts becomes U+FFFD
(`EF BF BD`), every other byte is copied. -/
def jsonStringFrom : Nat → GoString → GoString
  | _, [] => []
  | pending + 1, b :: t => b :: jsonStringFrom pending t
  | 0, b :: t =>
    match runeSize (b :: t) with
    | 0 => 0xEF :: 0xBF :: 0xBD :: jsonStringFrom 0 t
    | size + 1 => b :: jsonStringFrom size t

/-- The string a JSON reader decodes from what `json.Marshal` writes for a Go string. -/
def jsonString (s : GoString) : GoString := jsonStringFrom 0 s

/-- The check of `utf8.ValidString`, `pending` bytes of the current valid sequence still
to be skipped. -/
def validUTF8From : Nat → GoString → Bool
  | _, [] => true
  | pending + 1, _ :: t => validUTF8From pending t
  | 0, b :: t =>
    match runeSize (b :: t) with
    | 0 => false
    | size + 1 => validUTF8From size t

/-- The string is valid UTF-8 (`utf8.ValidString`). -/
def validUTF8 (s : GoString) : Bool := validUTF8From 0 s

/-! ## Data transfer objects (shared by both files) -/

/-- The Go struct `APIGatewayRequest`; `Handler` reads its `Body` only (the
`RequestContext` is only logged). -/
structure APIGatewayRequest where
  Body : GoString
  IsBase64Encoded : Bool := false
deriving DecidableEq, Repr

/-- The Go struct `APIGatewayResponse`. -/
structure APIGatewayResponse where
  StatusCode : Int
  Headers : List (GoString × GoString) := []
  MultiValueHeaders : List (GoString × List GoString) := []
  Body : GoString := []
  IsBase64Encoded : Bool := false
deriving DecidableEq, Repr

/-- The Go struct `Photo` (an anonymous struct with the same fields in `main.go`). -/
structure Photo where
  ID : GoString
  UniqueID : GoString := []
  Width : Int := 0
  Height : Int := 0
deriving DecidableEq, Repr

/-- The inner struct `Result` of `GetFilePathResp`. -/
structure GetFilePathResult where
  FilePath : GoString
deriving DecidableEq, Repr

/-- The Go struct `GetFilePathResp`. -/
structure GetFilePathResp where
  Result : GetFilePathResult
deriving DecidableEq, Repr

/-- The Go struct `OCRRequest`. -/
structure OCRRequest where
  MimeType : GoString
  LanguageCodes : List GoString
  Model : GoString
  Content : GoString
deriving DecidableEq, Repr

/-- The field `Result.TextAnnotation` of `OCRResp`. -/
structure OCRTextAnnotation where
  FullText : GoString
deriving DecidableEq, Repr

/-- The field `Result` of `OCRResp`. -/
structure OCRResult where
  TextAnnotation : OCRTextAnnotation
deriving DecidableEq, Repr

/-- The Go struct `OCRResp`. -/
structure OCRResp where
  Result : OCRResult
deriving DecidableEq, Repr

/-- The Go struct `SendMsgReq`. -/
structure SendMsgReq where
  ChatId : Int
  Text : GoString
  ReplyToMessageId : Int
  ParseMode : GoString
deriving DecidableEq, Repr

/-- The Go struct `YaGPTRequestOptions`; the `float64` constant of `Temperature` is
kept as the decimal it is written as. -/
structure YaGPTRequestOptions where
  Stream : Bool
  Temperature : Rat
  MaxTokens : GoString
deriving DecidableEq, Repr

/-- The Go struct `YaGPTRequestMessages`. -/
structure YaGPTRequestMessages where
  Role : GoString
  Text : GoString
deriving DecidableEq, Repr

/-- The Go struct `YaGPTRequest`. -/
structure YaGPTRequest where
  ModelUri : GoString
  CompletionOptions : YaGPTRequestOptions
  Messages : List YaGPTRequestMessages
deriving DecidableEq, Repr

/-- The field `Message` of one alternative of `YaGPTResponse`. -/
structure YaGPTMessage where
  Role : GoString := []
  Text : GoString
deriving DecidableEq, Repr

/-- One element of `YaGPTResponse.Result.Alternatives`. -/
structure YaGPTAlternative where
  Message : YaGPTMessage
  Status : GoString := []
deriving DecidableEq, Repr

/-- The field `Result.Usage` of `YaGPTResponse`. -/
structure YaGPTUsage where
  InputTextTokens : GoString := []
  CompletionTokens : GoString := []
  TotalTokens : GoString := []
deriving DecidableEq, Repr

/-- The field `Result` of `YaGPTResponse`. -/
structure YaGPTResult where
  Alternatives : List YaGPTAlternative
  Usage : YaGPTUsage := {}
  ModelVersion : GoString := []
deriving DecidableEq, Repr

/-- The Go struct `YaGPTResponse`. -/
structure YaGPTResponse where
  Result : YaGPTResult
deriving DecidableEq, Repr

/-- Models `json.Marshal` of a `SendMsgReq`. -/
def jsonMarshalSendMsgReq (m : SendMsgReq) : SendMsgReq :=
  { ChatId := m.ChatId, Text := jsonString m.Text, ReplyToMessageId := m.ReplyToMessageId,
    ParseMode := jsonString m.ParseMode }

/-- Models `json.Marshal` of an `OCRRequest`. -/
def jsonMarshalOCRRequest (r : OCRRequest) : OCRRequest :=
  { MimeType := jsonString r.MimeType, LanguageCodes := r.LanguageCodes.map jsonString,
    Model := jsonString r.Model, Content := jsonString r.Content }

/-- Models `json.Marshal` of a `YaGPTRequest`. -/
def jsonMarshalYaGPTRequest (r : YaGPTRequest) : YaGPTRequest :=
  { ModelUri := jsonString r.ModelUri
    CompletionOptions :=
      { Stream := r.CompletionOptions.Stream, Temperature := r.CompletionOptions.Temperature,
        MaxTokens := jsonString r.CompletionOptions.MaxTokens }
    Messages := r.Messages.map fun m => { Role := jsonString m.Role, Text := jsonString m.Text } }

namespace Terra

/-- The field `Message` of `Request` in `src/terra/internal/index.go`. -/
structure Message where
  ID : Int
  ChatID : Int
  Text : GoString := []
  Photo : List Photo := []
deriving DecidableEq, Repr

/-- The Go struct `Request` of `src/terra/internal/index.go`; `ChatID` is
`Message.Chat.ID`. -/
structure Request where
  UpdateID : Int := 0
  Message : Message
deriving DecidableEq, Repr

end Terra

namespace Internal

/-- The field `Message` of `Request` in `src/internal/main.go`: it has no `Text`. -/
structure Message where
  ID : Int
  ChatID : Int
  Photo : List Photo := []
deriving DecidableEq, Repr

/-- The Go struct `Request` of `src/internal/main.go`. -/
structure Request where
  UpdateID : Int := 0
  Message : Message
deriving DecidableEq, Repr

end Internal

/-! ## The outside world -/

/-- What an HTTP request carries in its body: nothing, or the JSON document `json.Marshal`
makes of one of the request structs, given as the field values a JSON reader decodes
from it. -/
inductive Payload where
  | empty
  | sendMsg (m : SendMsgReq)
  | ocr (r : OCRRequest)
  | yaGPT (r : YaGPTRequest)
deriving DecidableEq, Repr

/-- An outgoing HTTP request. -/
structure HttpRequest where
  Method : GoString
  URL : GoString
  Headers : List (GoString × GoString)
  Body : Payload
deriving DecidableEq, Repr

/-- The part of `http.Response` the code reads: `Body` is what `io.ReadAll(resp.Body)`
yields (its error is ignored everywhere in the source). -/
structure HttpResponse where
  StatusCode : Int
  Status : GoString
  Body : GoString
deriving DecidableEq, Repr

/-- An opened file: the outcome of `io.ReadAll` over it. -/
structure File where
  readAll : Except GoError GoString
deriving Repr

/-- One interaction with the outside world: the call and its answer. -/
inductive Event where
  | http (req : HttpRequest) (res : Except GoError HttpResponse)
  | exec (name : GoString) (args : List GoString) (res : Option GoError)
  | fileOpen (path : GoString) (res : Except GoError File)

/-- The transcript of an invocation, oldest interaction first. -/
abbrev Trace := List Event

/-- The environment a handler runs in. -/
structure World where
  /-- Models `os.Getenv`. -/
  getenv : GoString → GoString
  /-- Models `path.Join` of two elements. -/
  pathJoin : GoString → GoString → GoString
  /-- Models `base64.StdEncoding.EncodeToString`. -/
  base64 : GoString → GoString
  /-- Models `json.Unmarshal` into `&req` with `req : *Request` of index.go; `none` is the
  nil pointer stored for the JSON value `null`. -/
  unmarshalTerraRequest : GoString → Except GoError (Option Terra.Request)
  /-- Models `json.Unmarshal` into `&req` with `req : *Request` of main.go. -/
  unmarshalInternalRequest : GoString → Except GoError (Option Internal.Request)
  /-- Models `json.Unmarshal` into `&filePathResp`; `none` is the nil pointer. -/
  unmarshalGetFilePathResp : GoString → Except GoError (Option GetFilePathResp)
  /-- Models `json.Unmarshal` into `ocrResp`. -/
  unmarshalOCRResp : GoString → Except GoError OCRResp
  /-- Models `json.Unmarshal` into `yaGPTResp`. -/
  unmarshalYaGPTResponse : GoString → Except GoError YaGPTResponse
  /-- Models `http.Get`, `http.Post` and `http.DefaultClient.Do`: a transport error or a
  response. -/
  http : Trace → HttpRequest → Except GoError HttpResponse
  /-- Models `exec.Command(name, args...).Run()`. -/
  exec : Trace → GoString → List GoString → Option GoError
  /-- Models `os.Open`. -/
  fileOpen : Trace → GoString → Except GoError File

/-- The result of a Go function returning `(T, error)` that may also stop with a
run-time panic. -/
inductive Outcome (α : Type) where
  | ok (a : α)
  | error (e : GoError)
  | panic
deriving Repr

/-! ## Constants (identical in both files, except `defaultAnswer`) -/

def sendMsgURLPattern (token : GoString) : GoString :=
  goStr "https://api.telegram.org/bot" ++ token ++ goStr "/sendMessage"

def getFilePathURLPattern (token fileID : GoString) : GoString :=
  goStr "https://api.telegram.org/bot" ++ token ++ goStr "/getFile?file_id=" ++ fileID

def downloadFileURLPattern (token : GoString) : GoString :=
  goStr "https://api.telegram.org/file/bot" ++ token

def localPath : GoString := goStr "/function/storage/images"

def ocrURL : GoString := goStr "https://ocr.api.cloud.yandex.net/ocr/v1/recognizeText"

def catalog : GoString := goStr "b1g163vdicpkeevao9ga"

def yaGPTURL : GoString :=
  goStr "https://llm.api.cloud.yandex.net/foundationModels/v1/completion"

def maxMessageLen : Nat := 4096

/-! ## `sendReply` and `downloadFile` (identical in both files) -/

/-- The request `http.Post(fmt.Sprintf(sendMsgURLPattern, token), "application/json", body)`
of `sendReply` for one chunk, `body` being `json.Marshal(sendReplyBody)`. -/
def sendMsgRequest (token : GoString) (chatID : Int) (chunk : GoString) (replyToMsgID : Int) :
    HttpRequest :=
  { Method := goStr "POST"
    URL := sendMsgURLPattern token
    Headers := [(goStr "Content-Type", goStr "application/json")]
    Body := Payload.sendMsg
      (jsonMarshalSendMsgReq
        { ChatId := chatID, Text := chunk, ReplyToMessageId := replyToMsgID,
          ParseMode := goStr "Markdown" }) }

/-- The loop `for i := 0; i < len(texts); i++` of `sendReply`, over the chunks still to
post.  Returns the error (`none` is `nil`) and the extended transcript. -/
def sendReplyLoop (w : World) (token : GoString) (chatID : Int) (replyToMsgID : Int) :
    List GoString → Trace → Option GoError × Trace
  | [], tr => (none, tr)
  | chunk :: rest, tr =>
    let req := sendMsgRequest token chatID chunk replyToMsgID
    let res := w.http tr req
    let tr1 := tr ++ [Event.http req res]
    match res with
    | .error err => (some err, tr1)
    | .ok resp =>
      if resp.StatusCode ≥ 300 then
        (some (goStr "failed to send reply tg message: " ++ resp.Status ++ goStr " " ++ resp.Body),
          tr1)
      else
        sendReplyLoop w token chatID replyToMsgID rest tr1

/-- The function `sendReply` (index.go lines 311-351, main.go lines 269-309; the two
copies are the same text). -/
def sendReply (w : World) (chatID : Int) (text : GoString) (replyToMsgID : Int) (tr : Trace) :
    Option GoError × Trace :=
  let token := w.getenv (goStr "TG_API_KEY")
  let texts :=
    if text.length > maxMessageLen then
      [text.take maxMessageLen, text.drop maxMessageLen]
    else
      [text]
  sendReplyLoop w token chatID replyToMsgID texts tr

/-- The function `downloadFile`: runs `curl url --output filepath`. -/
def downloadFile (w : World) (filepath url : GoString) (tr : Trace) : Option GoError × Trace :=
  let args := [url, goStr "--output", filepath]
  let res := w.exec tr (goStr "curl") args
  (res, tr ++ [Event.exec (goStr "curl") args res])

/-! ## `src/terra/internal/index.go` -/

namespace Terra

def defaultAnswer : GoString :=
  goStr "Я помогу подготовить ответ на экзаменационный вопрос по дисциплине \"Операционные системы\".\nПришлите мне фотографию с вопросом или наберите его текстом."

/-- The map `predefinedAnswers`, as its list of key-value pairs (the keys are distinct). -/
def predefinedAnswers : List (GoString × GoString) :=
  [ (goStr "/help", defaultAnswer),
    (goStr "/start", defaultAnswer) ]

/-- The function `proceedOCR` of index.go (it sets no `Authorization` header). -/
def proceedOCR (w : World) (path : GoString) (tr : Trace) : Except GoError GoString × Trace :=
  let f := w.fileOpen tr path
  let tr1 := tr ++ [Event.fileOpen path f]
  match f with
  | .error err => (.error err, tr1)
  | .ok file =>
    match file.readAll with
    | .error err => (.error err, tr1)
    | .ok content =>
      let base64Img := w.base64 content
      let ocrBody : OCRRequest :=
        { MimeType := goStr "JPEG", LanguageCodes := [goStr "ru"], Model := goStr "page",
          Content := base64Img }
      let req : HttpRequest :=
        { Method := goStr "POST"
          URL := ocrURL
          Headers := [ (goStr "Content-Type", goStr "application/json"),
                       (goStr "x-data-logging-enabled", goStr "true") ]
          Body := Payload.ocr (jsonMarshalOCRRequest ocrBody) }
      let res := w.http tr1 req
      let tr2 := tr1 ++ [Event.http req res]
      match res with
      | .error err => (.error err, tr2)
      | .ok resp =>
        match w.unmarshalOCRResp resp.Body with
        | .error err => (.error err, tr2)
        | .ok ocrResp => (.ok ocrResp.Result.TextAnnotation.FullText, tr2)

/-- The function `doPrompt` of index.go (lines 353-424). -/
def doPrompt (w : World) (prompt : GoString) (tr : Trace) : Except GoError GoString × Trace :=
  let path := w.pathJoin localPath (goStr "setup.txt")
  let f := w.fileOpen tr path
  let tr1 := tr ++ [Event.fileOpen path f]
  match f with
  | .error err => (.error err, tr1)
  | .ok file =>
    let content :=
      match file.readAll with
      | .error _ =>
        goStr "Ты преподаватель по компьютерным наукам. Ответь на следующие билеты на экзамене"
      | .ok content => content
    let request : YaGPTRequest :=
      { ModelUri := goStr "gpt://" ++ catalog ++ goStr "/yandexgpt-lite"
        CompletionOptions := { Stream := false, Temperature := 0.4, MaxTokens := goStr "1500" }
        Messages := [ { Role := goStr "system", Text := content },
                      { Role := goStr "user", Text := prompt } ] }
    let apiToken := w.getenv (goStr "YAGPT_API_KEY")
    let req : HttpRequest :=
      { Method := goStr "POST"
        URL := yaGPTURL
        Headers := [ (goStr "Content-Type", goStr "application/json"),
                     (goStr "Authorization", goStr "Bearer " ++ apiToken) ]
        Body := Payload.yaGPT (jsonMarshalYaGPTRequest request) }
    let res := w.http tr1 req
    let tr2 := tr1 ++ [Event.http req res]
    match res with
    | .error err => (.error err, tr2)
    | .ok resp =>
      if resp.StatusCode ≥ 300 then
        (.error (goStr "yagpt request failed with status: " ++ resp.Status), tr2)
      else
        match w.unmarshalYaGPTResponse resp.Body with
        | .error err => (.error err, tr2)
        | .ok yaGPTResp =>
          match yaGPTResp.Result.Alternatives with
          | [] => (.ok (goStr "no answer :("), tr2)
          | alt :: _ => (.ok alt.Message.Text, tr2)

/-- The function `Handler` of index.go (lines 155-251).  The transcript of an invocation
starts empty. -/
def Handler (w : World) (event : APIGatewayRequest) : Outcome APIGatewayResponse × Trace :=
  let token := w.getenv (goStr "TG_API_KEY")
  match w.unmarshalTerraRequest event.Body with
  | .error err => (.error (wrapError "an error has occurred when parsing body" err), [])
  | .ok none => (.panic, [])
  | .ok (some req) =>
    if req.Message.Text ≠ [] then
      match predefinedAnswers.lookup req.Message.Text with
      | some predefined =>
        match sendReply w req.Message.ChatID predefined req.Message.ID [] with
        | (some err, tr) => (.error (wrapError "failed to send reply" err), tr)
        | (none, tr) => (.ok { StatusCode := 200 }, tr)
      | none =>
        let r := doPrompt w req.Message.Text []
        let promptResult :=
          match r.1 with
          | .error _ => goStr "Я не смог подготовить ответ на экзаменационный вопрос."
          | .ok s => s
        match sendReply w req.Message.ChatID promptResult req.Message.ID r.2 with
        | (some err, tr) => (.error (wrapError "failed to send reply" err), tr)
        | (none, tr) => (.ok { StatusCode := 200 }, tr)
    else if req.Message.Photo.length = 0 then
      match sendReply w req.Message.ChatID
          (goStr "Я могу обработать только текстовое сообщение или фотографию.")
          req.Message.ID [] with
      | (some err, tr) => (.error (wrapError "failed to send reply" err), tr)
      | (none, tr) => (.ok { StatusCode := 200 }, tr)
    else
      match req.Message.Photo[req.Message.Photo.length - 1]? with
      | none => (.panic, [])
      | some photo =>
        let fileID := photo.ID
        let getReq : HttpRequest :=
          { Method := goStr "GET", URL := getFilePathURLPattern token fileID, Headers := [],
            Body := Payload.empty }
        let getRes := w.http [] getReq
        let tr1 := [Event.http getReq getRes]
        match getRes with
        | .error err => (.error (wrapError "failed to get file path" err), tr1)
        | .ok get =>
          match w.unmarshalGetFilePathResp get.Body with
          | .error err => (.error (wrapError "failed to parse resp body" err), tr1)
          | .ok none => (.panic, tr1)
          | .ok (some filePathResp) =>
            let downloadPath :=
              w.pathJoin (downloadFileURLPattern token) filePathResp.Result.FilePath
            let filePath := w.pathJoin localPath fileID ++ goStr ".jpg"
            match downloadFile w filePath downloadPath tr1 with
            | (some err, tr2) => (.error (wrapError "failed to download image" err), tr2)
            | (none, tr2) =>
              match proceedOCR w filePath tr2 with
              | (.error err, tr3) => (.error (wrapError "failed to recognize text" err), tr3)
              | (.ok ocrText, tr3) =>
                let r := doPrompt w ocrText tr3
                let promptResult :=
                  match r.1 with
                  | .error _ => goStr "Я не смог подготовить ответ на экзаменационный вопрос."
                  | .ok s => s
                match sendReply w req.Message.ChatID promptResult req.Message.ID r.2 with
                | (some err, tr) => (.error (wrapError "failed to send reply" err), tr)
                | (none, tr) => (.ok { StatusCode := 200 }, tr)

end Terra

/-! ## `src/internal/main.go` -/

namespace Internal

/-- The function `proceedOCR` of main.go (it sends the OCR key as `Api-Key`). -/
def proceedOCR (w : World) (path : GoString) (tr : Trace) : Except GoError GoString × Trace :=
  let apiToken := w.getenv (goStr "OCR_API_KEY")
  let f := w.fileOpen tr path
  let tr1 := tr ++ [Event.fileOpen path f]
  match f with
  | .error err => (.error err, tr1)
  | .ok file =>
    match file.readAll with
    | .error err => (.error err, tr1)
    | .ok content =>
      let base64Img := w.base64 content
      let ocrBody : OCRRequest :=
        { MimeType := goStr "JPEG", LanguageCodes := [goStr "ru"], Model := goStr "page",
          Content := base64Img }
      let req : HttpRequest :=
        { Method := goStr "POST"
          URL := ocrURL
          Headers := [ (goStr "Content-Type", goStr "application/json"),
                       (goStr "Authorization", goStr "Api-Key " ++ apiToken),
                       (goStr "x-data-logging-enabled", goStr "true") ]
          Body := Payload.ocr (jsonMarshalOCRRequest ocrBody) }
      let res := w.http tr1 req
      let tr2 := tr1 ++ [Event.http req res]
      match res with
      | .error err => (.error err, tr2)
      | .ok resp =>
        match w.unmarshalOCRResp resp.Body with
        | .error err => (.error err, tr2)
        | .ok ocrResp => (.ok ocrResp.Result.TextAnnotation.FullText, tr2)

/-- The function `doPrompt` of main.go (lines 311-366): the system prompt is a constant. -/
def doPrompt (w : World) (prompt : GoString) (tr : Trace) : Except GoError GoString × Trace :=
  let request : YaGPTRequest :=
    { ModelUri := goStr "gpt://" ++ catalog ++ goStr "/yandexgpt-lite"
      CompletionOptions := { Stream := false, Temperature := 0.3, MaxTokens := goStr "2000" }
      Messages :=
        [ { Role := goStr "system",
            Text := goStr "Ты преподаватель по компьютерным наукам. Ответь на следующие билеты на экзамене" },
          { Role := goStr "user", Text := prompt } ] }
  let apiToken := w.getenv (goStr "YAGPT_API_KEY")
  let req : HttpRequest :=
    { Method := goStr "POST"
      URL := yaGPTURL
      Headers := [ (goStr "Content-Type", goStr "application/json"),
                   (goStr "Authorization", goStr "Api-Key " ++ apiToken) ]
      Body := Payload.yaGPT (jsonMarshalYaGPTRequest request) }
  let res := w.http tr req
  let tr1 := tr ++ [Event.http req res]
  match res with
  | .error err => (.error err, tr1)
  | .ok resp =>
    if resp.StatusCode ≥ 300 then
      (.error (goStr "yagpt request failed with status: " ++ resp.Status), tr1)
    else
      match w.unmarshalYaGPTResponse resp.Body with
      | .error err => (.error err, tr1)
      | .ok yaGPTResp =>
        match yaGPTResp.Result.Alternatives with
        | [] => (.ok (goStr "no answer :("), tr1)
        | alt :: _ => (.ok alt.Message.Text, tr1)

/-- The function `Handler` of main.go (lines 142-207). -/
def Handler (w : World) (event : APIGatewayRequest) : Outcome APIGatewayResponse × Trace :=
  let token := w.getenv (goStr "TG_API_KEY")
  match w.unmarshalInternalRequest event.Body with
  | .error err => (.error (wrapError "an error has occurred when parsing body" err), [])
  | .ok none => (.panic, [])
  | .ok (some req) =>
    if req.Message.Photo.length = 0 then
      match sendReply w req.Message.ChatID
          (goStr "Пришлите мне фотографию вашего экзаменационного билета и я его попытаюсь решить его")
          req.Message.ID [] with
      | (some err, tr) => (.error (wrapError "failed to send reply" err), tr)
      | (none, tr) => (.ok { StatusCode := 200 }, tr)
    else
      match req.Message.Photo[req.Message.Photo.length - 1]? with
      | none => (.panic, [])
      | some photo =>
        let fileID := photo.ID
        let getReq : HttpRequest :=
          { Method := goStr "GET", URL := getFilePathURLPattern token fileID, Headers := [],
            Body := Payload.empty }
        let getRes := w.http [] getReq
        let tr1 := [Event.http getReq getRes]
        match getRes with
        | .error err => (.error (wrapError "failed to get file path" err), tr1)
        | .ok get =>
          match w.unmarshalGetFilePathResp get.Body with
          | .error err => (.error (wrapError "failed to parse resp body" err), tr1)
          | .ok none => (.panic, tr1)
          | .ok (some filePathResp) =>
            let downloadPath :=
              w.pathJoin (downloadFileURLPattern token) filePathResp.Result.FilePath
            let filePath := w.pathJoin localPath fileID ++ goStr ".jpg"
            match downloadFile w filePath downloadPath tr1 with
            | (some err, tr2) => (.error (wrapError "failed to download image" err), tr2)
            | (none, tr2) =>
              match proceedOCR w filePath tr2 with
              | (.error err, tr3) => (.error (wrapError "failed to recognize text" err), tr3)
              | (.ok ocrText, tr3) =>
                match doPrompt w ocrText tr3 with
                | (.error err, tr4) => (.error (wrapError "failed to proceed prompt" err), tr4)
                | (.ok promptResult, tr4) =>
                  match sendReply w req.Message.ChatID promptResult req.Message.ID tr4 with
                  | (some err, tr) => (.error (wrapError "failed to send reply" err), tr)
                  | (none, tr) => (.ok { StatusCode := 200 }, tr)

end Internal

/-! ## Observations on transcripts -/

/-- The messages posted to the chat (the bodies of the `sendMessage` requests), in order. -/
def sentMessages (tr : Trace) : List SendMsgReq :=
  tr.filterMap fun e =>
    match e with
    | Event.http req _ =>
      match req.Body with
      | Payload.sendMsg m => some m
      | _ => none
    | _ => none

/-- The completion requests issued, in order. -/
def completionRequests (tr : Trace) : List YaGPTRequest :=
  tr.filterMap fun e =>
    match e with
    | Event.http req _ =>
      match req.Body with
      | Payload.yaGPT r => some r
      | _ => none
    | _ => none

/-- The OCR requests issued, in order. -/
def ocrRequests (tr : Trace) : List OCRRequest :=
  tr.filterMap fun e =>
    match e with
    | Event.http req _ =>
      match req.Body with
      | Payload.ocr r => some r
      | _ => none
    | _ => none

/-- The URLs of the body-less requests (the file-metadata lookups made with `http.Get`),
in order. -/
def fileLookups (tr : Trace) : List GoString :=
  tr.filterMap fun e =>
    match e with
    | Event.http req _ =>
      match req.Body with
      | Payload.empty => some req.URL
      | _ => none
    | _ => none

/-- The argument lists of the child processes run (the downloads), in order. -/
def downloads (tr : Trace) : List (List GoString) :=
  tr.filterMap fun e =>
    match e with
    | Event.exec _ args _ => some args
    | _ => none

/-- Every post of a chat message is answered, with a status below 300: the condition
under which `sendReply` counts a post as successful. -/
def PostsSucceed (w : World) : Prop :=
  ∀ (tr : Trace) (req : HttpRequest) (m : SendMsgReq), req.Body = Payload.sendMsg m →
    ∃ resp, w.http tr req = .ok resp ∧ resp.StatusCode < 300

/-- The message `sendReply` posts for one chunk. -/
def chunkMessage (chatID : Int) (replyToMsgID : Int) (chunk : GoString) : SendMsgReq :=
  jsonMarshalSendMsgReq
    { ChatId := chatID, Text := chunk, ReplyToMessageId := replyToMsgID,
      ParseMode := goStr "Markdown" }

/-- The request `http.Get(fmt.Sprintf(getFilePathURLPattern, token, fileID))`. -/
def fileLookupRequest (w : World) (fileID : GoString) : HttpRequest :=
  { Method := goStr "GET"
    URL := getFilePathURLPattern (w.getenv (goStr "TG_API_KEY")) fileID
    Headers := []
    Body := Payload.empty }

/-- The scratch file `path.Join(localPath, fileID) + ".jpg"` of a file id. -/
def scratchPath (w : World) (fileID : GoString) : GoString :=
  w.pathJoin localPath fileID ++ goStr ".jpg"

/-- The photo path of `Handler` (index.go) gets as far as the completion step: the
file-metadata lookup of the last photo is answered and parses, the download succeeds and
the OCR step yields `ocrText`, leaving the transcript `tr3`. -/
def Terra.ReachesPrompt (w : World) (req : Terra.Request) (ocrText : GoString) (tr3 : Trace) :
    Prop :=
  ∃ (photo : Photo) (get : HttpResponse) (filePathResp : GetFilePathResp) (tr2 : Trace),
    req.Message.Photo.getLast? = some photo ∧
    w.http [] (fileLookupRequest w photo.ID) = .ok get ∧
    w.unmarshalGetFilePathResp get.Body = .ok (some filePathResp) ∧
    downloadFile w (scratchPath w photo.ID)
        (w.pathJoin (downloadFileURLPattern (w.getenv (goStr "TG_API_KEY")))
          filePathResp.Result.FilePath)
        [Event.http (fileLookupRequest w photo.ID) (.ok get)] = (none, tr2) ∧
    Terra.proceedOCR w (scratchPath w photo.ID) tr2 = (.ok ocrText, tr3)

/-- The photo path of `Handler` (main.go) gets as far as the completion step. -/
def Internal.ReachesPrompt (w : World) (req : Internal.Request) (ocrText : GoString)
    (tr3 : Trace) : Prop :=
  ∃ (photo : Photo) (get : HttpResponse) (filePathResp : GetFilePathResp) (tr2 : Trace),
    req.Message.Photo.getLast? = some photo ∧
    w.http [] (fileLookupRequest w photo.ID) = .ok get ∧
    w.unmarshalGetFilePathResp get.Body = .ok (some filePathResp) ∧
    downloadFile w (scratchPath w photo.ID)
        (w.pathJoin (downloadFileURLPattern (w.getenv (goStr "TG_API_KEY")))
          filePathResp.Result.FilePath)
        [Event.http (fileLookupRequest w photo.ID) (.ok get)] = (none, tr2) ∧
    Internal.proceedOCR w (scratchPath w photo.ID) tr2 = (.ok ocrText, tr3)

/-! ## Concrete worlds and inputs -/

/-- A world in which everything works: every HTTP call is answered `200 OK` with body
`ok`, every file opens and reads as `system`, `curl` succeeds, and the JSON decoders
take the bytes they are given as the one field the code reads; request bodies do not
parse. -/
def calmWorld : World where
  getenv := fun _ => goStr "T"
  pathJoin := fun a b => a ++ goStr "/" ++ b
  base64 := fun b => b
  unmarshalTerraRequest := fun _ => .error (goStr "unexpected end of JSON input")
  unmarshalInternalRequest := fun _ => .error (goStr "unexpected end of JSON input")
  unmarshalGetFilePathResp := fun b => .ok (some { Result := { FilePath := b } })
  unmarshalOCRResp := fun b => .ok { Result := { TextAnnotation := { FullText := b } } }
  unmarshalYaGPTResponse := fun b => .ok { Result := { Alternatives := [{ Message := { Text := b } }] } }
  http := fun _ _ => .ok { StatusCode := 200, Status := goStr "200 OK", Body := goStr "ok" }
  exec := fun _ _ _ => none
  fileOpen := fun _ _ => .ok { readAll := .ok (goStr "system") }

/-- A request with free text `hi`, message 3 of chat 9. -/
def hiRequest : Terra.Request :=
  { Message := { ID := 3, ChatID := 9, Text := goStr "hi" } }

/-- The world `calmWorld` without the file `setup.txt` (no file opens) and with a request
decoder yielding `hiRequest`. -/
def noSetupWorld : World :=
  { calmWorld with
    unmarshalTerraRequest := fun _ => .ok (some hiRequest)
    fileOpen := fun _ _ => .error (goStr "open /function/storage/images/setup.txt: no such file or directory") }

/-- The world `calmWorld` whose completion answers decode to zero alternatives, with a
request decoder yielding `hiRequest`. -/
def emptyAnswerWorld : World :=
  { calmWorld with
    unmarshalTerraRequest := fun _ => .ok (some hiRequest)
    unmarshalYaGPTResponse := fun _ => .ok { Result := { Alternatives := [] } } }

/-- A photo update with two sizes, message 11 of chat 8; the larger size comes last. -/
def photoRequest : Terra.Request :=
  { Message := { ID := 11, ChatID := 8,
                 Photo := [ { ID := goStr "small", Width := 90, Height := 90 },
                            { ID := goStr "big", Width := 1280, Height := 1280 } ] } }

/-- The same photo update in the shape of main.go. -/
def photoRequestInternal : Internal.Request :=
  { Message := { ID := 11, ChatID := 8,
                 Photo := [ { ID := goStr "small", Width := 90, Height := 90 },
                            { ID := goStr "big", Width := 1280, Height := 1280 } ] } }

/-- The world `calmWorld` with request decoders yielding the photo update. -/
def photoWorld : World :=
  { calmWorld with
    unmarshalTerraRequest := fun _ => .ok (some photoRequest)
    unmarshalInternalRequest := fun _ => .ok (some photoRequestInternal) }

/-- A post fails, in the sense of `sendReply`: the transport returns an error or the
response status is 300 or above. -/
def PostFails (res : Except GoError HttpResponse) : Prop :=
  match res with
  | .error _ => True
  | .ok resp => resp.StatusCode ≥ 300

/-- A post fails, in the sense of the specification: the transport returns an error or
the response status is not in 200..299. -/
def PostFailsNon2xx (res : Except GoError HttpResponse) : Prop :=
  match res with
  | .error _ => True
  | .ok resp => ¬ (200 ≤ resp.StatusCode ∧ resp.StatusCode ≤ 299)

/-- The world `calmWorld` whose chat platform answers every request with
`101 Switching Protocols`. -/
def switchingWorld : World :=
  { calmWorld with
    http := fun _ _ =>
      .ok { StatusCode := 101, Status := goStr "101 Switching Protocols", Body := [] } }

/-- The body of the example of the specification: the text `help` in message 1 of
chat 42. -/
def exampleBody : GoString :=
  goStr "\x7b\"message\":\x7b\"message_id\":1,\"chat\":\x7b\"id\":42\x7d,\"text\":\"help\"\x7d\x7d"

/-- What `json.Unmarshal` makes of `exampleBody`. -/
def exampleRequest : Terra.Request :=
  { Message := { ID := 1, ChatID := 42, Text := goStr "help" } }

/-- The body of the example with the command `/help` as its text. -/
def slashBody : GoString :=
  goStr "\x7b\"message\":\x7b\"message_id\":1,\"chat\":\x7b\"id\":42\x7d,\"text\":\"/help\"\x7d\x7d"

/-- The update `/help` sent as message 1 of chat 42. -/
def helpRequest : Terra.Request :=
  { Message := { ID := 1, ChatID := 42, Text := goStr "/help" } }

/-- The world `calmWorld` with a request decoder yielding `helpRequest`. -/
def helpWorld : World :=
  { calmWorld with unmarshalTerraRequest := fun _ => .ok (some helpRequest) }

/-- An update with neither text nor photo, message 7 of chat 5. -/
def blankRequest : Terra.Request :=
  { Message := { ID := 7, ChatID := 5 } }

/-- The world `calmWorld` with a request decoder yielding `blankRequest`. -/
def blankWorld : World :=
  { calmWorld with unmarshalTerraRequest := fun _ => .ok (some blankRequest) }

/-- The world `calmWorld` with a request decoder that knows the two example bodies. -/
def exampleWorld : World :=
  { calmWorld with
    unmarshalTerraRequest := fun b =>
      if b = exampleBody then .ok (some exampleRequest)
      else if b = slashBody then .ok (some helpRequest)
      else .error (goStr "unexpected end of JSON input") }

/-- The world `photoWorld` whose completion service answers `500`. -/
def photoFailWorld : World :=
  { photoWorld with
    http := fun _ req =>
      match req.Body with
      | Payload.yaGPT _ =>
        .ok { StatusCode := 500, Status := goStr "500 Internal Server Error", Body := [] }
      | _ => .ok { StatusCode := 200, Status := goStr "200 OK", Body := goStr "ok" } }

/-- The world `photoWorld` whose completion answers decode to zero alternatives. -/
def photoEmptyWorld : World :=
  { photoWorld with
    unmarshalYaGPTResponse := fun _ => .ok { Result := { Alternatives := [] } } }

/-- The messages delivered to the chat: the bodies of the `sendMessage` requests that
were answered with a status below 300 (the posts `sendReply` counts as successful), in
order. -/
def deliveredMessages (tr : Trace) : List SendMsgReq :=
  tr.filterMap fun e =>
    match e with
    | Event.http req (.ok resp) =>
      match req.Body with
      | Payload.sendMsg m => if resp.StatusCode < 300 then some m else none
      | _ => none
    | _ => none

/-- A world in which the completion for `hi` is the text `reply` and the chat platform
accepts the first message of an invocation with `200 OK` and refuses every later one with
`429 Too Many Requests`. -/
def halfSentWorld (reply : GoString) : World :=
  { calmWorld with
    unmarshalTerraRequest := fun _ => .ok (some hiRequest)
    unmarshalYaGPTResponse := fun _ =>
      .ok { Result := { Alternatives := [{ Message := { Text := reply } }] } }
    http := fun tr req =>
      match req.Body with
      | Payload.sendMsg _ =>
        if (sentMessages tr).isEmpty then
          .ok { StatusCode := 200, Status := goStr "200 OK", Body := goStr "ok" }
        else
          .ok { StatusCode := 429, Status := goStr "429 Too Many Requests",
                Body := goStr "retry later" }
      | _ => .ok { StatusCode := 200, Status := goStr "200 OK", Body := goStr "ok" } }

/-- A text of 4097 bytes: 4095 letters `A` followed by the Cyrillic letter `я`, whose
two bytes `D1 8F` lie on either side of byte offset 4096. -/
def cutRuneText : GoString := List.replicate 4095 65 ++ [0xD1, 0x8F]

/-! ## Lemmas on transcripts and on `sendReply` -/

/-- The JSON encoder leaves a valid UTF-8 string as it is (general form, with bytes of
the current sequence pending). -/
theorem jsonStringFrom_of_valid (s : GoString) :
    ∀ pending : Nat, validUTF8From pending s = true → jsonStringFrom pending s = s := by
  induction s with
  | nil => intro pending _; cases pending <;> rfl
  | cons b t ih =>
    intro pending h
    cases pending with
    | succ p =>
      simp only [validUTF8From] at h
      simp only [jsonStringFrom, ih p h]
    | zero =>
      simp only [validUTF8From] at h
      simp only [jsonStringFrom]
      cases hr : runeSize (b :: t) with
      | zero => rw [hr] at h; simp at h
      | succ size =>
        rw [hr] at h
        simp only at h ⊢
        rw [ih size h]

/-- The JSON encoder leaves a valid UTF-8 string as it is. -/
theorem jsonString_of_valid (s : GoString) (h : validUTF8 s = true) : jsonString s = s :=
  jsonStringFrom_of_valid s 0 h

/-- The JSON encoder copies a run of letters `A`. -/
theorem jsonString_ascii (n : Nat) (s : GoString) :
    jsonString (List.replicate n 65 ++ s) = List.replicate n 65 ++ jsonString s := by
  induction n with
  | zero => rfl
  | succ n ih =>
    have h : runeSize (65 :: (List.replicate n 65 ++ s)) = 1 := rfl
    simp only [jsonString] at ih ⊢
    rw [List.replicate_succ, List.cons_append, jsonStringFrom, h]
    simp only
    rw [ih]
    rfl

/-- The message posted for a chunk carries the chunk as the JSON encoder writes it. -/
theorem chunkMessage_eq (chatID replyToMsgID : Int) (chunk : GoString) :
    chunkMessage chatID replyToMsgID chunk
      = { ChatId := chatID, Text := jsonString chunk, ReplyToMessageId := replyToMsgID,
          ParseMode := goStr "Markdown" } := rfl

theorem sentMessages_append (a b : Trace) :
    sentMessages (a ++ b) = sentMessages a ++ sentMessages b := by
  simp [sentMessages, List.filterMap_append]

theorem sentMessages_post (token : GoString) (chatID replyToMsgID : Int) (chunk : GoString)
    (res : Except GoError HttpResponse) :
    sentMessages [Event.http (sendMsgRequest token chatID chunk replyToMsgID) res]
      = [chunkMessage chatID replyToMsgID chunk] := by
  simp [sentMessages, sendMsgRequest, chunkMessage]

/-- When every post succeeds the loop posts every chunk, in order, and nothing else. -/
theorem sendReplyLoop_of_postsSucceed (w : World) (h : PostsSucceed w) (token : GoString)
    (chatID replyToMsgID : Int) (chunks : List GoString) (tr : Trace) :
    (sendReplyLoop w token chatID replyToMsgID chunks tr).1 = none ∧
    sentMessages (sendReplyLoop w token chatID replyToMsgID chunks tr).2
      = sentMessages tr ++ chunks.map (chunkMessage chatID replyToMsgID) ∧
    (sendReplyLoop w token chatID replyToMsgID chunks tr).2.length
      = tr.length + chunks.length := by
  induction chunks generalizing tr with
  | nil => simp [sendReplyLoop]
  | cons chunk rest ih =>
    obtain ⟨resp, hresp, hcode⟩ :=
      h tr (sendMsgRequest token chatID chunk replyToMsgID)
        (chunkMessage chatID replyToMsgID chunk) rfl
    have hnot : ¬ resp.StatusCode ≥ 300 := by omega
    have hstep : sendReplyLoop w token chatID replyToMsgID (chunk :: rest) tr
        = sendReplyLoop w token chatID replyToMsgID rest
            (tr ++ [Event.http (sendMsgRequest token chatID chunk replyToMsgID) (.ok resp)]) := by
      simp [sendReplyLoop, hresp, hnot]
    rw [hstep]
    obtain ⟨h1, h2, h3⟩ :=
      ih (tr ++ [Event.http (sendMsgRequest token chatID chunk replyToMsgID) (.ok resp)])
    refine ⟨h1, ?_, ?_⟩
    · rw [h2, sentMessages_append, sentMessages_post]
      simp
    · rw [h3]
      simp
      omega

theorem completionRequests_append (a b : Trace) :
    completionRequests (a ++ b) = completionRequests a ++ completionRequests b := by
  simp [completionRequests, List.filterMap_append]

theorem ocrRequests_append (a b : Trace) :
    ocrRequests (a ++ b) = ocrRequests a ++ ocrRequests b := by
  simp [ocrRequests, List.filterMap_append]

theorem fileLookups_append (a b : Trace) :
    fileLookups (a ++ b) = fileLookups a ++ fileLookups b := by
  simp [fileLookups, List.filterMap_append]

theorem downloads_append (a b : Trace) :
    downloads (a ++ b) = downloads a ++ downloads b := by
  simp [downloads, List.filterMap_append]

/-- A text of at most 4096 bytes is posted in one request, whatever the answer. -/
theorem sendReply_short (w : World) (chatID replyToMsgID : Int) (text : GoString) (tr : Trace)
    (hlen : text.length ≤ 4096) :
    (sendReply w chatID text replyToMsgID tr).2
      = tr ++ [Event.http (sendMsgRequest (w.getenv (goStr "TG_API_KEY")) chatID text replyToMsgID)
          (w.http tr (sendMsgRequest (w.getenv (goStr "TG_API_KEY")) chatID text replyToMsgID))] := by
  have hnot : ¬ text.length > maxMessageLen := by simp [maxMessageLen]; omega
  simp only [sendReply, hnot, if_false, sendReplyLoop]
  cases w.http tr (sendMsgRequest (w.getenv (goStr "TG_API_KEY")) chatID text replyToMsgID) with
  | error e => rfl
  | ok resp =>
    by_cases hc : resp.StatusCode ≥ 300
    · simp [hc]
    · simp [hc]

/-- A text of at most 4096 bytes whose post is answered with a status below 300 is sent
without error. -/
theorem sendReply_short_ok (w : World) (chatID replyToMsgID : Int) (text : GoString) (tr : Trace)
    (hlen : text.length ≤ 4096) (resp : HttpResponse)
    (hpost : w.http tr (sendMsgRequest (w.getenv (goStr "TG_API_KEY")) chatID text replyToMsgID)
      = .ok resp)
    (hcode : resp.StatusCode < 300) :
    (sendReply w chatID text replyToMsgID tr).1 = none := by
  have hnot : ¬ text.length > maxMessageLen := by simp [maxMessageLen]; omega
  have hc : ¬ resp.StatusCode ≥ 300 := by omega
  simp [sendReply, hnot, sendReplyLoop, hpost, hc]

/-- The observations on the transcript of a reply of at most 4096 bytes. -/
theorem sendReply_short_observations (w : World) (chatID replyToMsgID : Int) (text : GoString)
    (tr : Trace) (hlen : text.length ≤ 4096) :
    sentMessages (sendReply w chatID text replyToMsgID tr).2
      = sentMessages tr ++ [chunkMessage chatID replyToMsgID text] ∧
    fileLookups (sendReply w chatID text replyToMsgID tr).2 = fileLookups tr ∧
    downloads (sendReply w chatID text replyToMsgID tr).2 = downloads tr ∧
    ocrRequests (sendReply w chatID text replyToMsgID tr).2 = ocrRequests tr ∧
    completionRequests (sendReply w chatID text replyToMsgID tr).2 = completionRequests tr ∧
    (sendReply w chatID text replyToMsgID tr).2.length = tr.length + 1 := by
  rw [sendReply_short w chatID replyToMsgID text tr hlen]
  refine ⟨?_, ?_, ?_, ?_, ?_, ?_⟩
  · rw [sentMessages_append, sentMessages_post]
  · rw [fileLookups_append]; simp [fileLookups, sendMsgRequest]
  · rw [downloads_append]; simp [downloads]
  · rw [ocrRequests_append]; simp [ocrRequests, sendMsgRequest]
  · rw [completionRequests_append]; simp [completionRequests, sendMsgRequest]
  · simp

/-- The closing step of every path of `Handler` keeps the transcript of `sendReply`. -/
theorem reply_transcript (p : Option GoError × Trace) :
    (match p with
      | (some err, tr) =>
        ((Outcome.error (wrapError "failed to send reply" err) : Outcome APIGatewayResponse), tr)
      | (none, tr) => (Outcome.ok { StatusCode := 200 }, tr)).2 = p.2 := by
  rcases p with ⟨_ | e, tr⟩ <;> rfl

/-- The closing step of every path of `Handler` answers 200 when `sendReply` returns nil. -/
theorem reply_outcome (p : Option GoError × Trace) (h : p.1 = none) :
    (match p with
      | (some err, tr) =>
        ((Outcome.error (wrapError "failed to send reply" err) : Outcome APIGatewayResponse), tr)
      | (none, tr) => (Outcome.ok { StatusCode := 200 }, tr)).1
      = Outcome.ok { StatusCode := 200 } := by
  rcases p with ⟨_ | e, tr⟩
  · rfl
  · simp at h

theorem defaultAnswer_length : Terra.defaultAnswer.length ≤ 4096 := by decide

theorem apology_length :
    (goStr "Я не смог подготовить ответ на экзаменационный вопрос.").length ≤ 4096 := by decide

theorem unsupported_length :
    (goStr "Я могу обработать только текстовое сообщение или фотографию.").length ≤ 4096 := by
  decide

theorem sentinel_length : (goStr "no answer :(").length ≤ 4096 := by decide

/-- Both keys of `predefinedAnswers` are non-empty and map to `defaultAnswer`. -/
theorem predefinedAnswers_key (text : GoString)
    (hkey : text ∈ Terra.predefinedAnswers.map Prod.fst) :
    text ≠ [] ∧ Terra.predefinedAnswers.lookup text = some Terra.defaultAnswer := by
  have h1 : (goStr "/start" == goStr "/help") = false := by decide
  have h2 : (goStr "/start" == goStr "/start") = true := by decide
  have h3 : (goStr "/help" == goStr "/help") = true := by decide
  have h4 : goStr "/help" ≠ [] := by decide
  have h5 : goStr "/start" ≠ [] := by decide
  simp only [Terra.predefinedAnswers, List.map, List.mem_cons, List.mem_nil_iff, or_false] at hkey
  rcases hkey with h | h
  · subst h
    exact ⟨h4, by simp [Terra.predefinedAnswers, List.lookup, h3]⟩
  · subst h
    exact ⟨h5, by simp [Terra.predefinedAnswers, List.lookup, h1, h2]⟩

/-- The command path of `Handler`: one call of `sendReply` with the predefined answer. -/
theorem terra_handler_command_eq (w : World) (event : APIGatewayRequest) (req : Terra.Request)
    (hparse : w.unmarshalTerraRequest event.Body = .ok (some req))
    (hkey : req.Message.Text ∈ Terra.predefinedAnswers.map Prod.fst) :
    Terra.Handler w event =
      match sendReply w req.Message.ChatID Terra.defaultAnswer req.Message.ID [] with
      | (some err, tr) => (Outcome.error (wrapError "failed to send reply" err), tr)
      | (none, tr) => (Outcome.ok { StatusCode := 200 }, tr) := by
  obtain ⟨hne, hlook⟩ := predefinedAnswers_key req.Message.Text hkey
  simp only [Terra.Handler, hparse, hne, hlook, ne_eq, not_false_eq_true, if_true]

/-- The unsupported-input path of `Handler`: one call of `sendReply` with the fixed text. -/
theorem terra_handler_unsupported_eq (w : World) (event : APIGatewayRequest)
    (req : Terra.Request)
    (hparse : w.unmarshalTerraRequest event.Body = .ok (some req))
    (htext : req.Message.Text = []) (hphoto : req.Message.Photo = []) :
    Terra.Handler w event =
      match sendReply w req.Message.ChatID
          (goStr "Я могу обработать только текстовое сообщение или фотографию.")
          req.Message.ID [] with
      | (some err, tr) => (Outcome.error (wrapError "failed to send reply" err), tr)
      | (none, tr) => (Outcome.ok { StatusCode := 200 }, tr) := by
  simp [Terra.Handler, hparse, htext, hphoto]

/-- The free-text path of `Handler` (index.go): `doPrompt` on the text, then one call of
`sendReply` with its result or the apology. -/
theorem terra_handler_text_eq (w : World) (event : APIGatewayRequest) (req : Terra.Request)
    (hparse : w.unmarshalTerraRequest event.Body = .ok (some req))
    (htext : req.Message.Text ≠ [])
    (hcmd : Terra.predefinedAnswers.lookup req.Message.Text = none) :
    Terra.Handler w event =
      match sendReply w req.Message.ChatID
          (match (Terra.doPrompt w req.Message.Text []).1 with
            | .error _ => goStr "Я не смог подготовить ответ на экзаменационный вопрос."
            | .ok s => s)
          req.Message.ID (Terra.doPrompt w req.Message.Text []).2 with
      | (some err, tr) => (Outcome.error (wrapError "failed to send reply" err), tr)
      | (none, tr) => (Outcome.ok { StatusCode := 200 }, tr) := by
  simp only [Terra.Handler, hparse, htext, hcmd, ne_eq, not_false_eq_true, if_true]

/-- The photo path of `Handler` (index.go) once it reaches the completion step. -/
theorem terra_handler_photo_eq (w : World) (event : APIGatewayRequest) (req : Terra.Request)
    (hparse : w.unmarshalTerraRequest event.Body = .ok (some req))
    (htext : req.Message.Text = []) (ocrText : GoString) (tr3 : Trace)
    (hreach : Terra.ReachesPrompt w req ocrText tr3) :
    Terra.Handler w event =
      match sendReply w req.Message.ChatID
          (match (Terra.doPrompt w ocrText tr3).1 with
            | .error _ => goStr "Я не смог подготовить ответ на экзаменационный вопрос."
            | .ok s => s)
          req.Message.ID (Terra.doPrompt w ocrText tr3).2 with
      | (some err, tr) => (Outcome.error (wrapError "failed to send reply" err), tr)
      | (none, tr) => (Outcome.ok { StatusCode := 200 }, tr) := by
  obtain ⟨photo, get, filePathResp, tr2, hlast, hget, hfp, hdl, hocr⟩ := hreach
  have hne : req.Message.Photo ≠ [] := by
    intro h
    rw [h] at hlast
    simp at hlast
  have hlen : ¬ req.Message.Photo.length = 0 := by
    simpa [List.length_eq_zero] using hne
  rw [List.getLast?_eq_getElem?] at hlast
  simp only [fileLookupRequest, scratchPath] at hget hdl hocr
  simp only [Terra.Handler, hparse, htext, hlen, hlast, hget, hfp, hdl, hocr, ne_eq,
    not_true_eq_false, if_false]

/-- When `setup.txt` cannot be opened, `doPrompt` (index.go) returns the error of
`os.Open` and does nothing else. -/
theorem terra_doPrompt_open_error (w : World) (prompt : GoString) (tr : Trace) (err : GoError)
    (h : w.fileOpen tr (w.pathJoin localPath (goStr "setup.txt")) = .error err) :
    Terra.doPrompt w prompt tr
      = (.error err,
          tr ++ [Event.fileOpen (w.pathJoin localPath (goStr "setup.txt")) (.error err)]) := by
  simp [Terra.doPrompt, h]

/-- When `setup.txt` opens, `doPrompt` (index.go) issues one completion request, with
the content of the file (or the hardcoded prompt when reading fails) as the system message
and the prompt as the user message, and computes its result from the answer. -/
theorem terra_doPrompt_open_ok (w : World) (prompt : GoString) (tr : Trace) (file : File)
    (h : w.fileOpen tr (w.pathJoin localPath (goStr "setup.txt")) = .ok file) :
    ∃ (req : HttpRequest) (y : YaGPTRequest),
      (Terra.doPrompt w prompt tr).2
        = tr ++ [Event.fileOpen (w.pathJoin localPath (goStr "setup.txt")) (.ok file),
            Event.http req
              (w.http (tr ++ [Event.fileOpen (w.pathJoin localPath (goStr "setup.txt"))
                (.ok file)]) req)] ∧
      req.Body = Payload.yaGPT y ∧
      y.Messages
        = [ { Role := goStr "system",
              Text :=
                jsonString
                  (match file.readAll with
                    | .error _ =>
                      goStr "Ты преподаватель по компьютерным наукам. Ответь на следующие билеты на экзамене"
                    | .ok content => content) },
            { Role := goStr "user", Text := jsonString prompt } ] ∧
      (Terra.doPrompt w prompt tr).1
        = match w.http (tr ++ [Event.fileOpen (w.pathJoin localPath (goStr "setup.txt"))
            (.ok file)]) req with
          | .error err => .error err
          | .ok resp =>
            if resp.StatusCode ≥ 300 then
              .error (goStr "yagpt request failed with status: " ++ resp.Status)
            else
              match w.unmarshalYaGPTResponse resp.Body with
              | .error err => .error err
              | .ok yaGPTResp =>
                match yaGPTResp.Result.Alternatives with
                | [] => .ok (goStr "no answer :(")
                | alt :: _ => .ok alt.Message.Text := by
  refine ⟨{ Method := goStr "POST"
            URL := yaGPTURL
            Headers := [ (goStr "Content-Type", goStr "application/json"),
                         (goStr "Authorization",
                           goStr "Bearer " ++ w.getenv (goStr "YAGPT_API_KEY")) ]
            Body := Payload.yaGPT
              (jsonMarshalYaGPTRequest
                { ModelUri := goStr "gpt://" ++ catalog ++ goStr "/yandexgpt-lite"
                  CompletionOptions :=
                    { Stream := false, Temperature := 0.4, MaxTokens := goStr "1500" }
                  Messages :=
                    [ { Role := goStr "system",
                        Text :=
                          match file.readAll with
                          | .error _ =>
                            goStr "Ты преподаватель по компьютерным наукам. Ответь на следующие билеты на экзамене"
                          | .ok content => content },
                      { Role := goStr "user", Text := prompt } ] }) },
          _, ?_, rfl, rfl, ?_⟩
  · simp only [Terra.doPrompt, h]
    split
    · simp
    · split
      · simp
      · split
        · simp
        · split <;> simp
  · simp only [Terra.doPrompt, h]
    split
    · rfl
    · split
      · rfl
      · split
        · rfl
        · split <;> rfl

/-- The function `doPrompt` (index.go) posts no chat message. -/
theorem terra_doPrompt_sentMessages (w : World) (prompt : GoString) (tr : Trace) :
    sentMessages (Terra.doPrompt w prompt tr).2 = sentMessages tr := by
  cases h : w.fileOpen tr (w.pathJoin localPath (goStr "setup.txt")) with
  | error err =>
    rw [terra_doPrompt_open_error w prompt tr err h, sentMessages_append]
    simp [sentMessages]
  | ok file =>
    obtain ⟨req, y, htr, hbody, _, _⟩ := terra_doPrompt_open_ok w prompt tr file h
    rw [htr, sentMessages_append]
    simp [sentMessages, hbody]

/-- The function `proceedOCR` (index.go) posts no chat message. -/
theorem terra_proceedOCR_sentMessages (w : World) (path : GoString) (tr : Trace) :
    sentMessages (Terra.proceedOCR w path tr).2 = sentMessages tr := by
  simp only [Terra.proceedOCR]
  split
  · simp [sentMessages_append, sentMessages]
  · split
    · simp [sentMessages_append, sentMessages]
    · split
      · simp [sentMessages_append, sentMessages]
      · split <;> simp [sentMessages_append, sentMessages]

/-- Nothing is posted to the chat before the completion step of the photo path. -/
theorem terra_reaches_sentMessages (w : World) (req : Terra.Request) (ocrText : GoString)
    (tr3 : Trace) (h : Terra.ReachesPrompt w req ocrText tr3) : sentMessages tr3 = [] := by
  obtain ⟨photo, get, filePathResp, tr2, _, _, _, hdl, hocr⟩ := h
  have h3 := terra_proceedOCR_sentMessages w (scratchPath w photo.ID) tr2
  rw [hocr] at h3
  simp only [downloadFile, Prod.mk.injEq] at hdl
  rw [h3, ← hdl.2]
  simp [sentMessages, fileLookupRequest]

/-- The closing step of the text and photo paths of `Handler`, for a reply of at most
4096 bytes: the reply is posted once, and the answer is 200 when the post succeeds. -/
theorem reply_step (w : World) (chatID replyToMsgID : Int) (text : GoString) (tr : Trace)
    (hlen : text.length ≤ 4096) :
    sentMessages
      (match sendReply w chatID text replyToMsgID tr with
        | (some err, tr1) =>
          ((Outcome.error (wrapError "failed to send reply" err) : Outcome APIGatewayResponse),
            tr1)
        | (none, tr1) => (Outcome.ok { StatusCode := 200 }, tr1)).2
      = sentMessages tr ++ [chunkMessage chatID replyToMsgID text] ∧
    (∀ resp : HttpResponse,
      w.http tr (sendMsgRequest (w.getenv (goStr "TG_API_KEY")) chatID text replyToMsgID)
        = .ok resp →
      resp.StatusCode < 300 →
      (match sendReply w chatID text replyToMsgID tr with
        | (some err, tr1) =>
          ((Outcome.error (wrapError "failed to send reply" err) : Outcome APIGatewayResponse),
            tr1)
        | (none, tr1) => (Outcome.ok { StatusCode := 200 }, tr1)).1
        = Outcome.ok { StatusCode := 200 }) := by
  constructor
  · rw [reply_transcript]
    exact (sendReply_short_observations w chatID replyToMsgID text tr hlen).1
  · intro resp hpost hcode
    exact reply_outcome _ (sendReply_short_ok w chatID replyToMsgID text tr hlen resp hpost hcode)

/-- The result of `doPrompt` (index.go) when the completion service has answered with a
status below 300 and a body that decodes. -/
theorem terra_doPrompt_answered (w : World) (prompt : GoString) (tr : Trace)
    (req : HttpRequest) (resp : HttpResponse) (r : YaGPTResponse)
    (hlast : (Terra.doPrompt w prompt tr).2.getLast? = some (Event.http req (.ok resp)))
    (hcode : resp.StatusCode < 300)
    (hdecode : w.unmarshalYaGPTResponse resp.Body = .ok r) :
    (Terra.doPrompt w prompt tr).1
      = match r.Result.Alternatives with
        | [] => .ok (goStr "no answer :(")
        | alt :: _ => .ok alt.Message.Text := by
  cases h : w.fileOpen tr (w.pathJoin localPath (goStr "setup.txt")) with
  | error err =>
    rw [terra_doPrompt_open_error w prompt tr err h] at hlast
    simp at hlast
  | ok file =>
    obtain ⟨req1, y, htr, _, _, hres⟩ := terra_doPrompt_open_ok w prompt tr file h
    rw [htr] at hlast
    have hl : (tr ++ [Event.fileOpen (w.pathJoin localPath (goStr "setup.txt")) (.ok file),
        Event.http req1
          (w.http (tr ++ [Event.fileOpen (w.pathJoin localPath (goStr "setup.txt"))
            (.ok file)]) req1)]).getLast?
        = some (Event.http req1
          (w.http (tr ++ [Event.fileOpen (w.pathJoin localPath (goStr "setup.txt"))
            (.ok file)]) req1)) := by
      simp [List.getLast?_append]
    rw [hl] at hlast
    simp only [Option.some.injEq, Event.http.injEq] at hlast
    have hc : ¬ resp.StatusCode ≥ 300 := by omega
    rw [hres, hlast.2]
    simp only [hc, if_false, hdecode]

/-- The transcript and the result of `doPrompt` (main.go): one completion request with the
prompt as the user message. -/
theorem internal_doPrompt_spec (w : World) (prompt : GoString) (tr : Trace) :
    ∃ (req : HttpRequest) (y : YaGPTRequest),
      (Internal.doPrompt w prompt tr).2 = tr ++ [Event.http req (w.http tr req)] ∧
      req.Body = Payload.yaGPT y ∧
      y.Messages
        = [ { Role := goStr "system",
              Text := goStr "Ты преподаватель по компьютерным наукам. Ответь на следующие билеты на экзамене" },
            { Role := goStr "user", Text := jsonString prompt } ] ∧
      (Internal.doPrompt w prompt tr).1
        = match w.http tr req with
          | .error err => .error err
          | .ok resp =>
            if resp.StatusCode ≥ 300 then
              .error (goStr "yagpt request failed with status: " ++ resp.Status)
            else
              match w.unmarshalYaGPTResponse resp.Body with
              | .error err => .error err
              | .ok yaGPTResp =>
                match yaGPTResp.Result.Alternatives with
                | [] => .ok (goStr "no answer :(")
                | alt :: _ => .ok alt.Message.Text := by
  refine ⟨{ Method := goStr "POST"
            URL := yaGPTURL
            Headers := [ (goStr "Content-Type", goStr "application/json"),
                         (goStr "Authorization",
                           goStr "Api-Key " ++ w.getenv (goStr "YAGPT_API_KEY")) ]
            Body := Payload.yaGPT
              (jsonMarshalYaGPTRequest
                { ModelUri := goStr "gpt://" ++ catalog ++ goStr "/yandexgpt-lite"
                  CompletionOptions :=
                    { Stream := false, Temperature := 0.3, MaxTokens := goStr "2000" }
                  Messages :=
                    [ { Role := goStr "system",
                        Text := goStr "Ты преподаватель по компьютерным наукам. Ответь на следующие билеты на экзамене" },
                      { Role := goStr "user", Text := prompt } ] }) },
          _, ?_, rfl, rfl, ?_⟩
  · simp only [Internal.doPrompt]
    split
    · rfl
    · split
      · rfl
      · split
        · rfl
        · split <;> rfl
  · simp only [Internal.doPrompt]
    split
    · rfl
    · split
      · rfl
      · split
        · rfl
        · split <;> rfl

/-- The result of `doPrompt` (main.go) when the completion service has answered with a
status below 300 and a body that decodes. -/
theorem internal_doPrompt_answered (w : World) (prompt : GoString) (tr : Trace)
    (req : HttpRequest) (resp : HttpResponse) (r : YaGPTResponse)
    (hlast : (Internal.doPrompt w prompt tr).2.getLast? = some (Event.http req (.ok resp)))
    (hcode : resp.StatusCode < 300)
    (hdecode : w.unmarshalYaGPTResponse resp.Body = .ok r) :
    (Internal.doPrompt w prompt tr).1
      = match r.Result.Alternatives with
        | [] => .ok (goStr "no answer :(")
        | alt :: _ => .ok alt.Message.Text := by
  obtain ⟨req1, y, htr, _, _, hres⟩ := internal_doPrompt_spec w prompt tr
  rw [htr] at hlast
  simp only [List.getLast?_concat, Option.some.injEq, Event.http.injEq] at hlast
  have hc : ¬ resp.StatusCode ≥ 300 := by omega
  rw [hres, hlast.2]
  simp only [hc, if_false, hdecode]

/-- The function `doPrompt` (main.go) posts no chat message. -/
theorem internal_doPrompt_sentMessages (w : World) (prompt : GoString) (tr : Trace) :
    sentMessages (Internal.doPrompt w prompt tr).2 = sentMessages tr := by
  obtain ⟨req, y, htr, hbody, _, _⟩ := internal_doPrompt_spec w prompt tr
  rw [htr, sentMessages_append]
  simp [sentMessages, hbody]

/-- The function `proceedOCR` (main.go) posts no chat message. -/
theorem internal_proceedOCR_sentMessages (w : World) (path : GoString) (tr : Trace) :
    sentMessages (Internal.proceedOCR w path tr).2 = sentMessages tr := by
  simp only [Internal.proceedOCR]
  split
  · simp [sentMessages_append, sentMessages]
  · split
    · simp [sentMessages_append, sentMessages]
    · split
      · simp [sentMessages_append, sentMessages]
      · split <;> simp [sentMessages_append, sentMessages]

/-- Nothing is posted to the chat before the completion step of the photo path (main.go). -/
theorem internal_reaches_sentMessages (w : World) (req : Internal.Request)
    (ocrText : GoString) (tr3 : Trace) (h : Internal.ReachesPrompt w req ocrText tr3) :
    sentMessages tr3 = [] := by
  obtain ⟨photo, get, filePathResp, tr2, _, _, _, hdl, hocr⟩ := h
  have h3 := internal_proceedOCR_sentMessages w (scratchPath w photo.ID) tr2
  rw [hocr] at h3
  simp only [downloadFile, Prod.mk.injEq] at hdl
  rw [h3, ← hdl.2]
  simp [sentMessages, fileLookupRequest]

/-- The photo path of `Handler` (main.go) once it reaches the completion step and
`doPrompt` returns a text. -/
theorem internal_handler_photo_eq (w : World) (event : APIGatewayRequest)
    (req : Internal.Request)
    (hparse : w.unmarshalInternalRequest event.Body = .ok (some req))
    (ocrText : GoString) (tr3 : Trace)
    (hreach : Internal.ReachesPrompt w req ocrText tr3) (promptResult : GoString)
    (hprompt : (Internal.doPrompt w ocrText tr3).1 = .ok promptResult) :
    Internal.Handler w event =
      match sendReply w req.Message.ChatID promptResult req.Message.ID
          (Internal.doPrompt w ocrText tr3).2 with
      | (some err, tr) => (Outcome.error (wrapError "failed to send reply" err), tr)
      | (none, tr) => (Outcome.ok { StatusCode := 200 }, tr) := by
  obtain ⟨photo, get, filePathResp, tr2, hlast, hget, hfp, hdl, hocr⟩ := hreach
  have hne : req.Message.Photo ≠ [] := by
    intro h
    rw [h] at hlast
    simp at hlast
  have hlen : ¬ req.Message.Photo.length = 0 := by
    simpa [List.length_eq_zero] using hne
  rw [List.getLast?_eq_getElem?] at hlast
  simp only [fileLookupRequest, scratchPath] at hget hdl hocr
  have hp : Internal.doPrompt w ocrText tr3
      = (.ok promptResult, (Internal.doPrompt w ocrText tr3).2) := by
    rw [← hprompt]
  simp only [Internal.Handler, hparse, hlen, hlast, hget, hfp, hdl, hocr, if_false]
  rw [hp]

/-- The loop of `sendReply` makes no file-metadata lookup and no download. -/
theorem sendReplyLoop_quiet (w : World) (token : GoString) (chatID replyToMsgID : Int)
    (chunks : List GoString) (tr : Trace) :
    fileLookups (sendReplyLoop w token chatID replyToMsgID chunks tr).2 = fileLookups tr ∧
    downloads (sendReplyLoop w token chatID replyToMsgID chunks tr).2 = downloads tr := by
  induction chunks generalizing tr with
  | nil => simp [sendReplyLoop]
  | cons chunk rest ih =>
    simp only [sendReplyLoop]
    split
    · simp [fileLookups_append, downloads_append, fileLookups, downloads, sendMsgRequest]
    · split
      · simp [fileLookups_append, downloads_append, fileLookups, downloads, sendMsgRequest]
      · rw [(ih _).1, (ih _).2]
        simp [fileLookups_append, downloads_append, fileLookups, downloads, sendMsgRequest]

/-- The function `sendReply` makes no file-metadata lookup and no download. -/
theorem sendReply_quiet (w : World) (chatID replyToMsgID : Int) (text : GoString) (tr : Trace) :
    fileLookups (sendReply w chatID text replyToMsgID tr).2 = fileLookups tr ∧
    downloads (sendReply w chatID text replyToMsgID tr).2 = downloads tr := by
  simp only [sendReply]
  exact sendReplyLoop_quiet w _ chatID replyToMsgID _ tr

/-- The function `doPrompt` (index.go) makes no file-metadata lookup and no download. -/
theorem terra_doPrompt_quiet (w : World) (prompt : GoString) (tr : Trace) :
    fileLookups (Terra.doPrompt w prompt tr).2 = fileLookups tr ∧
    downloads (Terra.doPrompt w prompt tr).2 = downloads tr := by
  cases h : w.fileOpen tr (w.pathJoin localPath (goStr "setup.txt")) with
  | error err =>
    rw [terra_doPrompt_open_error w prompt tr err h, fileLookups_append, downloads_append]
    simp [fileLookups, downloads]
  | ok file =>
    obtain ⟨req, y, htr, hbody, _, _⟩ := terra_doPrompt_open_ok w prompt tr file h
    rw [htr, fileLookups_append, downloads_append]
    simp [fileLookups, downloads, hbody]

/-- The function `doPrompt` (main.go) makes no file-metadata lookup and no download. -/
theorem internal_doPrompt_quiet (w : World) (prompt : GoString) (tr : Trace) :
    fileLookups (Internal.doPrompt w prompt tr).2 = fileLookups tr ∧
    downloads (Internal.doPrompt w prompt tr).2 = downloads tr := by
  obtain ⟨req, y, htr, hbody, _, _⟩ := internal_doPrompt_spec w prompt tr
  rw [htr, fileLookups_append, downloads_append]
  simp [fileLookups, downloads, hbody]

/-- The function `proceedOCR` (index.go) makes no file-metadata lookup and no download. -/
theorem terra_proceedOCR_quiet (w : World) (path : GoString) (tr : Trace) :
    fileLookups (Terra.proceedOCR w path tr).2 = fileLookups tr ∧
    downloads (Terra.proceedOCR w path tr).2 = downloads tr := by
  simp only [Terra.proceedOCR]
  split
  · simp [fileLookups_append, downloads_append, fileLookups, downloads]
  · split
    · simp [fileLookups_append, downloads_append, fileLookups, downloads]
    · split
      · simp [fileLookups_append, downloads_append, fileLookups, downloads]
      · split <;> simp [fileLookups_append, downloads_append, fileLookups, downloads]

/-- The function `proceedOCR` (main.go) makes no file-metadata lookup and no download. -/
theorem internal_proceedOCR_quiet (w : World) (path : GoString) (tr : Trace) :
    fileLookups (Internal.proceedOCR w path tr).2 = fileLookups tr ∧
    downloads (Internal.proceedOCR w path tr).2 = downloads tr := by
  simp only [Internal.proceedOCR]
  split
  · simp [fileLookups_append, downloads_append, fileLookups, downloads]
  · split
    · simp [fileLookups_append, downloads_append, fileLookups, downloads]
    · split
      · simp [fileLookups_append, downloads_append, fileLookups, downloads]
      · split <;> simp [fileLookups_append, downloads_append, fileLookups, downloads]

/-- The function `downloadFile` runs one `curl` with the URL and the output path. -/
theorem downloadFile_observations (w : World) (filepath url : GoString) (tr : Trace) :
    fileLookups (downloadFile w filepath url tr).2 = fileLookups tr ∧
    downloads (downloadFile w filepath url tr).2
      = downloads tr ++ [[url, goStr "--output", filepath]] := by
  simp [downloadFile, fileLookups_append, downloads_append, fileLookups, downloads]

/-- On the photo path of `Handler` (index.go) the one file-metadata lookup and every
download carry the file id of the selected photo. -/
theorem terra_handler_photo_observations (w : World) (event : APIGatewayRequest)
    (req : Terra.Request) (photo : Photo)
    (hparse : w.unmarshalTerraRequest event.Body = .ok (some req))
    (htext : req.Message.Text = [])
    (hlast : req.Message.Photo[req.Message.Photo.length - 1]? = some photo) :
    fileLookups (Terra.Handler w event).2
      = [getFilePathURLPattern (w.getenv (goStr "TG_API_KEY")) photo.ID] ∧
    ∀ args ∈ downloads (Terra.Handler w event).2,
      ∃ url, args = [url, goStr "--output", w.pathJoin localPath photo.ID ++ goStr ".jpg"] := by
  have hlen : ¬ req.Message.Photo.length = 0 := by
    intro h
    rw [List.length_eq_zero] at h
    rw [h] at hlast
    simp at hlast
  have h1 : fileLookups [Event.http (fileLookupRequest w photo.ID)
      (w.http [] (fileLookupRequest w photo.ID))]
        = [getFilePathURLPattern (w.getenv (goStr "TG_API_KEY")) photo.ID] ∧
      downloads [Event.http (fileLookupRequest w photo.ID)
        (w.http [] (fileLookupRequest w photo.ID))] = [] := by
    simp [fileLookups, downloads, fileLookupRequest]
  cases hget : w.http [] (fileLookupRequest w photo.ID) with
  | error err =>
    rw [hget] at h1
    simp only [fileLookupRequest] at hget h1
    simp [Terra.Handler, hparse, htext, hlen, hlast, hget, h1]
  | ok get =>
    rw [hget] at h1
    cases hfp : w.unmarshalGetFilePathResp get.Body with
    | error err =>
      simp only [fileLookupRequest] at hget h1
      simp [Terra.Handler, hparse, htext, hlen, hlast, hget, hfp, h1]
    | ok ofp =>
      cases ofp with
      | none =>
        simp only [fileLookupRequest] at hget h1
        simp [Terra.Handler, hparse, htext, hlen, hlast, hget, hfp, h1]
      | some filePathResp =>
        have h2 := downloadFile_observations w (scratchPath w photo.ID)
          (w.pathJoin (downloadFileURLPattern (w.getenv (goStr "TG_API_KEY")))
            filePathResp.Result.FilePath)
          [Event.http (fileLookupRequest w photo.ID) (.ok get)]
        rw [h1.1, h1.2] at h2
        rcases hdl : downloadFile w (scratchPath w photo.ID)
          (w.pathJoin (downloadFileURLPattern (w.getenv (goStr "TG_API_KEY")))
            filePathResp.Result.FilePath)
          [Event.http (fileLookupRequest w photo.ID) (.ok get)] with ⟨derr, tr2⟩
        rw [hdl] at h2
        simp only [List.nil_append] at h2
        cases derr with
        | some err =>
          simp only [fileLookupRequest, scratchPath] at hget hdl h2
          simp [Terra.Handler, hparse, htext, hlen, hlast, hget, hfp, hdl, h2]
        | none =>
          have h3 := terra_proceedOCR_quiet w (scratchPath w photo.ID) tr2
          rw [h2.1, h2.2] at h3
          rcases hocr : Terra.proceedOCR w (scratchPath w photo.ID) tr2 with ⟨ores, tr3⟩
          rw [hocr] at h3
          cases ores with
          | error err =>
            simp only [fileLookupRequest, scratchPath] at hget hdl hocr h3
            simp [Terra.Handler, hparse, htext, hlen, hlast, hget, hfp, hdl, hocr, h3]
          | ok ocrText =>
            have h4 := terra_doPrompt_quiet w ocrText tr3
            have h5 := sendReply_quiet w req.Message.ChatID req.Message.ID
              (match (Terra.doPrompt w ocrText tr3).1 with
                | .error _ => goStr "Я не смог подготовить ответ на экзаменационный вопрос."
                | .ok s => s)
              (Terra.doPrompt w ocrText tr3).2
            rw [h4.1, h4.2, h3.1, h3.2] at h5
            simp only [fileLookupRequest, scratchPath] at hget hdl hocr h5
            simp only [Terra.Handler, hparse, htext, hlen, hlast, hget, hfp, hdl, hocr, ne_eq,
              not_true_eq_false, if_false, reply_transcript]
            simp [h5]

/-- On the photo path of `Handler` (main.go) the one file-metadata lookup and every
download carry the file id of the selected photo. -/
theorem internal_handler_photo_observations (w : World) (event : APIGatewayRequest)
    (req : Internal.Request) (photo : Photo)
    (hparse : w.unmarshalInternalRequest event.Body = .ok (some req))
    (hlast : req.Message.Photo[req.Message.Photo.length - 1]? = some photo) :
    fileLookups (Internal.Handler w event).2
      = [getFilePathURLPattern (w.getenv (goStr "TG_API_KEY")) photo.ID] ∧
    ∀ args ∈ downloads (Internal.Handler w event).2,
      ∃ url, args = [url, goStr "--output", w.pathJoin localPath photo.ID ++ goStr ".jpg"] := by
  have hlen : ¬ req.Message.Photo.length = 0 := by
    intro h
    rw [List.length_eq_zero] at h
    rw [h] at hlast
    simp at hlast
  have h1 : fileLookups [Event.http (fileLookupRequest w photo.ID)
      (w.http [] (fileLookupRequest w photo.ID))]
        = [getFilePathURLPattern (w.getenv (goStr "TG_API_KEY")) photo.ID] ∧
      downloads [Event.http (fileLookupRequest w photo.ID)
        (w.http [] (fileLookupRequest w photo.ID))] = [] := by
    simp [fileLookups, downloads, fileLookupRequest]
  cases hget : w.http [] (fileLookupRequest w photo.ID) with
  | error err =>
    rw [hget] at h1
    simp only [fileLookupRequest] at hget h1
    simp [Internal.Handler, hparse, hlen, hlast, hget, h1]
  | ok get =>
    rw [hget] at h1
    cases hfp : w.unmarshalGetFilePathResp get.Body with
    | error err =>
      simp only [fileLookupRequest] at hget h1
      simp [Internal.Handler, hparse, hlen, hlast, hget, hfp, h1]
    | ok ofp =>
      cases ofp with
      | none =>
        simp only [fileLookupRequest] at hget h1
        simp [Internal.Handler, hparse, hlen, hlast, hget, hfp, h1]
      | some filePathResp =>
        have h2 := downloadFile_observations w (scratchPath w photo.ID)
          (w.pathJoin (downloadFileURLPattern (w.getenv (goStr "TG_API_KEY")))
            filePathResp.Result.FilePath)
          [Event.http (fileLookupRequest w photo.ID) (.ok get)]
        rw [h1.1, h1.2] at h2
        rcases hdl : downloadFile w (scratchPath w photo.ID)
          (w.pathJoin (downloadFileURLPattern (w.getenv (goStr "TG_API_KEY")))
            filePathResp.Result.FilePath)
          [Event.http (fileLookupRequest w photo.ID) (.ok get)] with ⟨derr, tr2⟩
        rw [hdl] at h2
        simp only [List.nil_append] at h2
        cases derr with
        | some err =>
          simp only [fileLookupRequest, scratchPath] at hget hdl h2
          simp [Internal.Handler, hparse, hlen, hlast, hget, hfp, hdl, h2]
        | none =>
          have h3 := internal_proceedOCR_quiet w (scratchPath w photo.ID) tr2
          rw [h2.1, h2.2] at h3
          rcases hocr : Internal.proceedOCR w (scratchPath w photo.ID) tr2 with ⟨ores, tr3⟩
          rw [hocr] at h3
          cases ores with
          | error err =>
            simp only [fileLookupRequest, scratchPath] at hget hdl hocr h3
            simp [Internal.Handler, hparse, hlen, hlast, hget, hfp, hdl, hocr, h3]
          | ok ocrText =>
            have h4 := internal_doPrompt_quiet w ocrText tr3
            rw [h3.1, h3.2] at h4
            rcases hp : Internal.doPrompt w ocrText tr3 with ⟨pres, tr4⟩
            rw [hp] at h4
            cases pres with
            | error err =>
              simp only [fileLookupRequest, scratchPath] at hget hdl hocr h4
              simp [Internal.Handler, hparse, hlen, hlast, hget, hfp, hdl, hocr, hp, h4]
            | ok promptResult =>
              have h5 := sendReply_quiet w req.Message.ChatID req.Message.ID promptResult tr4
              rw [h4.1, h4.2] at h5
              simp only [fileLookupRequest, scratchPath] at hget hdl hocr h5
              simp only [Internal.Handler, hparse, hlen, hlast, hget, hfp, hdl, hocr, hp,
                if_false, reply_transcript]
              simp [h5]

/-- The URL of the file-metadata lookup determines the file id. -/
theorem getFilePathURLPattern_injective (token a b : GoString)
    (h : getFilePathURLPattern token a = getFilePathURLPattern token b) : a = b := by
  simp only [getFilePathURLPattern] at h
  exact List.append_cancel_left h

/-- A non-empty list has an element at index `len - 1`, and it is its last element. -/
theorem last_index_in_bounds (photos : List Photo) (hne : photos ≠ []) :
    ∃ last : Photo, photos.getLast? = some last ∧ photos.length - 1 < photos.length ∧
      photos[photos.length - 1]? = some last := by
  have hpos : 0 < photos.length := List.length_pos.mpr hne
  have hlt : photos.length - 1 < photos.length := by omega
  refine ⟨photos[photos.length - 1], ?_, hlt, ?_⟩
  · rw [List.getLast?_eq_getElem?]
    exact List.getElem?_eq_getElem hlt
  · exact List.getElem?_eq_getElem hlt

/-- The observations on the command path of `Handler` (index.go). -/
theorem terra_handler_command_observations (w : World) (event : APIGatewayRequest) (req : Terra.Request)
    (hparse : w.unmarshalTerraRequest event.Body = .ok (some req))
    (hkey : req.Message.Text ∈ Terra.predefinedAnswers.map Prod.fst) :
    Terra.predefinedAnswers.map Prod.fst = [goStr "/help", goStr "/start"] ∧
    sentMessages (Terra.Handler w event).2
      = [{ ChatId := req.Message.ChatID, Text := Terra.defaultAnswer,
           ReplyToMessageId := req.Message.ID, ParseMode := goStr "Markdown" }] ∧
    fileLookups (Terra.Handler w event).2 = [] ∧
    downloads (Terra.Handler w event).2 = [] ∧
    ocrRequests (Terra.Handler w event).2 = [] ∧
    completionRequests (Terra.Handler w event).2 = [] ∧
    (Terra.Handler w event).2.length = 1 := by
  rw [terra_handler_command_eq w event req hparse hkey, reply_transcript]
  have h := sendReply_short_observations w req.Message.ChatID req.Message.ID
    Terra.defaultAnswer [] defaultAnswer_length
  exact ⟨rfl, by simpa [chunkMessage, sentMessages] using h.1,
    by simpa [fileLookups] using h.2.1, by simpa [downloads] using h.2.2.1,
    by simpa [ocrRequests] using h.2.2.2.1,
    by simpa [completionRequests] using h.2.2.2.2.1, by simpa using h.2.2.2.2.2⟩

/-- The failure rule of the loop of `sendReply`, over any list of chunks. -/
theorem sendReplyLoop_failure_rule (w : World) (token : GoString) (chatID replyToMsgID : Int)
    (chunks : List GoString) (tr : Trace) :
    ∃ posts : List (HttpRequest × Except GoError HttpResponse),
      (sendReplyLoop w token chatID replyToMsgID chunks tr).2
        = tr ++ posts.map (fun p => Event.http p.1 p.2) ∧
      (∀ p ∈ posts, ∃ chunk ∈ chunks, p.1 = sendMsgRequest token chatID chunk replyToMsgID) ∧
      (∀ p ∈ posts.dropLast, ¬ PostFails p.2) ∧
      ((sendReplyLoop w token chatID replyToMsgID chunks tr).1 ≠ none
        ↔ ∃ p ∈ posts, PostFails p.2) ∧
      (∀ err : GoError, (sendReplyLoop w token chatID replyToMsgID chunks tr).1 = some err →
        ∃ p, posts.getLast? = some p ∧
          (p.2 = .error err ∨
            ∃ resp : HttpResponse, p.2 = .ok resp ∧ resp.StatusCode ≥ 300 ∧
              err = goStr "failed to send reply tg message: " ++ resp.Status ++ goStr " "
                ++ resp.Body)) := by
  induction chunks generalizing tr with
  | nil =>
    exact ⟨[], by simp [sendReplyLoop], by simp, by simp, by simp [sendReplyLoop],
      by simp [sendReplyLoop]⟩
  | cons chunk rest ih =>
    cases hres : w.http tr (sendMsgRequest token chatID chunk replyToMsgID) with
    | error e =>
      refine ⟨[(sendMsgRequest token chatID chunk replyToMsgID, .error e)], ?_, ?_, ?_, ?_, ?_⟩
      · simp [sendReplyLoop, hres]
      · simp
      · simp
      · simp [sendReplyLoop, hres, PostFails]
      · intro err herr
        simp only [sendReplyLoop, hres, Option.some.injEq] at herr
        exact ⟨(sendMsgRequest token chatID chunk replyToMsgID, .error e), rfl,
          Or.inl (by rw [herr])⟩
    | ok resp =>
      by_cases hc : resp.StatusCode ≥ 300
      · refine ⟨[(sendMsgRequest token chatID chunk replyToMsgID, .ok resp)], ?_, ?_, ?_, ?_, ?_⟩
        · simp [sendReplyLoop, hres, hc]
        · simp
        · simp
        · simp [sendReplyLoop, hres, hc, PostFails]
        · intro err herr
          simp only [sendReplyLoop, hres, hc, if_true, Option.some.injEq] at herr
          exact ⟨(sendMsgRequest token chatID chunk replyToMsgID, .ok resp), rfl,
            Or.inr ⟨resp, rfl, hc, herr.symm⟩⟩
      · obtain ⟨posts, htr, hreq, hdrop, hiff, herr⟩ :=
          ih (tr ++ [Event.http (sendMsgRequest token chatID chunk replyToMsgID) (.ok resp)])
        have hstep : sendReplyLoop w token chatID replyToMsgID (chunk :: rest) tr
            = sendReplyLoop w token chatID replyToMsgID rest
                (tr ++ [Event.http (sendMsgRequest token chatID chunk replyToMsgID)
                  (.ok resp)]) := by
          simp [sendReplyLoop, hres, hc]
        rw [hstep]
        refine ⟨(sendMsgRequest token chatID chunk replyToMsgID, .ok resp) :: posts,
          ?_, ?_, ?_, ?_, ?_⟩
        · rw [htr]; simp
        · intro p hp
          rcases List.mem_cons.mp hp with h | h
          · exact ⟨chunk, by simp, by rw [h]⟩
          · obtain ⟨c, hcm, hce⟩ := hreq p h
            exact ⟨c, List.mem_cons_of_mem _ hcm, hce⟩
        · intro p hp
          cases posts with
          | nil => simp at hp
          | cons q qs =>
            rw [List.dropLast_cons₂] at hp
            rcases List.mem_cons.mp hp with h | h
            · rw [h]; simpa [PostFails] using hc
            · exact hdrop p h
        · rw [hiff]
          constructor
          · rintro ⟨p, hp, hf⟩
            exact ⟨p, List.mem_cons_of_mem _ hp, hf⟩
          · rintro ⟨p, hp, hf⟩
            rcases List.mem_cons.mp hp with h | h
            · rw [h] at hf
              exact absurd hf (by simpa [PostFails] using hc)
            · exact ⟨p, h, hf⟩
        · intro err he
          obtain ⟨p, hlast, hp⟩ := herr err he
          refine ⟨p, ?_, hp⟩
          cases posts with
          | nil => simp at hlast
          | cons q qs => rw [List.getLast?_cons_cons]; exact hlast

/-- The function `sendReply` issues no completion request. -/
theorem sendReply_completionRequests (w : World) (chatID replyToMsgID : Int) (text : GoString)
    (tr : Trace) :
    completionRequests (sendReply w chatID text replyToMsgID tr).2 = completionRequests tr := by
  obtain ⟨posts, htr, hreq, _, _, _⟩ :=
    sendReplyLoop_failure_rule w (w.getenv (goStr "TG_API_KEY")) chatID replyToMsgID
      (if text.length > maxMessageLen then
        [text.take maxMessageLen, text.drop maxMessageLen] else [text]) tr
  simp only [sendReply]
  rw [htr, completionRequests_append]
  have hnone : completionRequests (posts.map (fun p => Event.http p.1 p.2)) = [] := by
    simp only [completionRequests, List.filterMap_eq_nil_iff, List.mem_map]
    rintro e ⟨p, hp, rfl⟩
    obtain ⟨c, _, hc⟩ := hreq p hp
    simp [hc, sendMsgRequest]
  rw [hnone, List.append_nil]

/-- Apart from a missing `setup.txt`, the free-text path of `Handler` (index.go) issues
exactly one completion request, whose user message is the text of the payload as
`json.Marshal` writes it (the text itself when it is valid UTF-8, as every string decoded
by `json.Unmarshal` is). -/
theorem terra_handler_text_completion (w : World) (event : APIGatewayRequest)
    (req : Terra.Request)
    (hparse : w.unmarshalTerraRequest event.Body = .ok (some req))
    (htext : req.Message.Text ≠ [])
    (hcmd : Terra.predefinedAnswers.lookup req.Message.Text = none) (file : File)
    (hopen : w.fileOpen [] (w.pathJoin localPath (goStr "setup.txt")) = .ok file) :
    ∃ (y : YaGPTRequest) (system : GoString),
      completionRequests (Terra.Handler w event).2 = [y] ∧
      y.Messages = [ { Role := goStr "system", Text := system },
                     { Role := goStr "user", Text := jsonString req.Message.Text } ] := by
  obtain ⟨hreq, y, htr, hbody, hmsg, _⟩ :=
    terra_doPrompt_open_ok w req.Message.Text [] file hopen
  refine ⟨y, _, ?_, hmsg⟩
  rw [terra_handler_text_eq w event req hparse htext hcmd, reply_transcript,
    sendReply_completionRequests, htr]
  simp [completionRequests, hbody]

theorem longText_length : (List.replicate 4097 (65 : UInt8)).length > 4096 := by
  rw [List.length_replicate]; decide

theorem deliveredMessages_append (a b : Trace) :
    deliveredMessages (a ++ b) = deliveredMessages a ++ deliveredMessages b := by
  simp [deliveredMessages, List.filterMap_append]

/-- A transcript without posts to the chat has delivered nothing. -/
theorem deliveredMessages_of_sentMessages_nil (tr : Trace) (h : sentMessages tr = []) :
    deliveredMessages tr = [] := by
  induction tr with
  | nil => rfl
  | cons e rest ih =>
    have hsplit : sentMessages (e :: rest) = sentMessages [e] ++ sentMessages rest :=
      sentMessages_append [e] rest
    rw [hsplit, List.append_eq_nil] at h
    have hd : deliveredMessages (e :: rest) = deliveredMessages [e] ++ deliveredMessages rest :=
      deliveredMessages_append [e] rest
    rw [hd, ih h.2, List.append_nil]
    have h1 := h.1
    cases e with
    | http req res =>
      cases res with
      | error err => simp [deliveredMessages]
      | ok resp =>
        cases hb : req.Body with
        | sendMsg m => simp [sentMessages, hb] at h1
        | empty => simp [deliveredMessages, hb]
        | ocr r => simp [deliveredMessages, hb]
        | yaGPT r => simp [deliveredMessages, hb]
    | exec name args res => simp [deliveredMessages]
    | fileOpen path res => simp [deliveredMessages]

/-- What one answered post contributes to the delivered messages. -/
theorem deliveredMessages_post (token : GoString) (chatID replyToMsgID : Int) (chunk : GoString)
    (res : Except GoError HttpResponse) :
    deliveredMessages [Event.http (sendMsgRequest token chatID chunk replyToMsgID) res]
      = match res with
        | .error _ => []
        | .ok resp =>
          if resp.StatusCode < 300 then [chunkMessage chatID replyToMsgID chunk] else [] := by
  cases res with
  | error err => simp [deliveredMessages]
  | ok resp =>
    by_cases hc : resp.StatusCode < 300
    · simp [deliveredMessages, sendMsgRequest, chunkMessage, hc]
    · simp [deliveredMessages, sendMsgRequest, hc]

/-- When `sendReply` returns an error after a transcript without posts, either nothing
was delivered, or the text was longer than 4096 bytes, both chunks were posted and exactly
the first one was delivered. -/
theorem sendReply_error_delivered (w : World) (chatID replyToMsgID : Int) (text : GoString)
    (pre : Trace) (err : GoError) (hpre : sentMessages pre = [])
    (herr : (sendReply w chatID text replyToMsgID pre).1 = some err) :
    deliveredMessages (sendReply w chatID text replyToMsgID pre).2 = [] ∨
    (text.length > 4096 ∧
      sentMessages (sendReply w chatID text replyToMsgID pre).2
        = [chunkMessage chatID replyToMsgID (text.take 4096),
           chunkMessage chatID replyToMsgID (text.drop 4096)] ∧
      deliveredMessages (sendReply w chatID text replyToMsgID pre).2
        = [chunkMessage chatID replyToMsgID (text.take 4096)]) := by
  have hdpre := deliveredMessages_of_sentMessages_nil pre hpre
  by_cases hlen : text.length > maxMessageLen
  · simp only [sendReply, hlen, if_true, sendReplyLoop] at herr ⊢
    cases h1 : w.http pre (sendMsgRequest (w.getenv (goStr "TG_API_KEY")) chatID
        (text.take maxMessageLen) replyToMsgID) with
    | error e1 =>
      left
      simp only [h1]
      rw [deliveredMessages_append, hdpre, deliveredMessages_post]
      rfl
    | ok resp1 =>
      simp only [h1] at herr ⊢
      by_cases hc1 : resp1.StatusCode ≥ 300
      · left
        have hn : ¬ resp1.StatusCode < 300 := by omega
        simp only [hc1, if_true]
        rw [deliveredMessages_append, hdpre, deliveredMessages_post]
        simp [hn]
      · right
        have hy : resp1.StatusCode < 300 := by omega
        simp only [hc1, if_false] at herr ⊢
        refine ⟨by simpa [maxMessageLen] using hlen, ?_⟩
        have hd1 : deliveredMessages
            [Event.http (sendMsgRequest (w.getenv (goStr "TG_API_KEY")) chatID
              (text.take maxMessageLen) replyToMsgID) (Except.ok resp1)]
            = [chunkMessage chatID replyToMsgID (text.take maxMessageLen)] := by
          rw [deliveredMessages_post]
          simp [hy]
        cases h2 : w.http
            (pre ++ [Event.http (sendMsgRequest (w.getenv (goStr "TG_API_KEY")) chatID
              (text.take maxMessageLen) replyToMsgID) (Except.ok resp1)])
            (sendMsgRequest (w.getenv (goStr "TG_API_KEY")) chatID
              (text.drop maxMessageLen) replyToMsgID) with
        | error e2 =>
          simp only [h2]
          constructor
          · rw [sentMessages_append, sentMessages_append, hpre, sentMessages_post,
              sentMessages_post]
            rfl
          · rw [deliveredMessages_append, deliveredMessages_append, hdpre, hd1,
              deliveredMessages_post]
            rfl
        | ok resp2 =>
          simp only [h2] at herr ⊢
          by_cases hc2 : resp2.StatusCode ≥ 300
          · have hn2 : ¬ resp2.StatusCode < 300 := by omega
            simp only [hc2, if_true]
            constructor
            · rw [sentMessages_append, sentMessages_append, hpre, sentMessages_post,
                sentMessages_post]
              rfl
            · rw [deliveredMessages_append, deliveredMessages_append, hdpre, hd1,
                deliveredMessages_post]
              simp [hn2, maxMessageLen]
          · simp [hc2] at herr
  · left
    simp only [sendReply, hlen, if_false, sendReplyLoop] at herr ⊢
    cases h1 : w.http pre (sendMsgRequest (w.getenv (goStr "TG_API_KEY")) chatID
        text replyToMsgID) with
    | error e1 =>
      simp only [h1]
      rw [deliveredMessages_append, hdpre, deliveredMessages_post]
      rfl
    | ok resp1 =>
      simp only [h1] at herr ⊢
      by_cases hc1 : resp1.StatusCode ≥ 300
      · have hn : ¬ resp1.StatusCode < 300 := by omega
        simp only [hc1, if_true]
        rw [deliveredMessages_append, hdpre, deliveredMessages_post]
        simp [hn]
      · simp [hc1] at herr

/-- Every run of `Handler` (index.go) either posts nothing to the chat, or ends with one
call of `sendReply` made after a transcript without posts. -/
theorem terra_handler_shape (w : World) (event : APIGatewayRequest) :
    sentMessages (Terra.Handler w event).2 = [] ∨
    ∃ (chatID replyToMsgID : Int) (text : GoString) (pre : Trace),
      sentMessages pre = [] ∧
      Terra.Handler w event =
        match sendReply w chatID text replyToMsgID pre with
        | (some err, tr) => (Outcome.error (wrapError "failed to send reply" err), tr)
        | (none, tr) => (Outcome.ok { StatusCode := 200 }, tr) := by
  cases hparse : w.unmarshalTerraRequest event.Body with
  | error err => left; simp [Terra.Handler, hparse, sentMessages]
  | ok oreq =>
    cases oreq with
    | none => left; simp [Terra.Handler, hparse, sentMessages]
    | some req =>
      by_cases htext : req.Message.Text = []
      · by_cases hphoto : req.Message.Photo = []
        · right
          exact ⟨_, _, _, [], rfl,
            terra_handler_unsupported_eq w event req hparse htext hphoto⟩
        · obtain ⟨photo, hlast, _, hidx⟩ := last_index_in_bounds req.Message.Photo hphoto
          have hlen : ¬ req.Message.Photo.length = 0 := by
            simpa [List.length_eq_zero] using hphoto
          have h1 : sentMessages [Event.http (fileLookupRequest w photo.ID)
              (w.http [] (fileLookupRequest w photo.ID))] = [] := by
            simp [sentMessages, fileLookupRequest]
          cases hget : w.http [] (fileLookupRequest w photo.ID) with
          | error err =>
            left
            rw [hget] at h1
            simp only [fileLookupRequest] at hget h1
            simp [Terra.Handler, hparse, htext, hlen, hidx, hget, h1]
          | ok get =>
            rw [hget] at h1
            cases hfp : w.unmarshalGetFilePathResp get.Body with
            | error err =>
              left
              simp only [fileLookupRequest] at hget h1
              simp [Terra.Handler, hparse, htext, hlen, hidx, hget, hfp, h1]
            | ok ofp =>
              cases ofp with
              | none =>
                left
                simp only [fileLookupRequest] at hget h1
                simp [Terra.Handler, hparse, htext, hlen, hidx, hget, hfp, h1]
              | some filePathResp =>
                rcases hdl : downloadFile w (scratchPath w photo.ID)
                  (w.pathJoin (downloadFileURLPattern (w.getenv (goStr "TG_API_KEY")))
                    filePathResp.Result.FilePath)
                  [Event.http (fileLookupRequest w photo.ID) (.ok get)] with ⟨derr, tr2⟩
                have h2 : sentMessages tr2 = [] := by
                  have hd := hdl
                  simp only [downloadFile, Prod.mk.injEq] at hd
                  rw [← hd.2, sentMessages_append, h1]
                  simp [sentMessages]
                cases derr with
                | some err =>
                  left
                  simp only [fileLookupRequest, scratchPath] at hget hdl
                  simp [Terra.Handler, hparse, htext, hlen, hidx, hget, hfp, hdl, h2]
                | none =>
                  have h3 := terra_proceedOCR_sentMessages w (scratchPath w photo.ID) tr2
                  rw [h2] at h3
                  rcases hocr : Terra.proceedOCR w (scratchPath w photo.ID) tr2
                    with ⟨ores, tr3⟩
                  rw [hocr] at h3
                  cases ores with
                  | error err =>
                    left
                    simp only [fileLookupRequest, scratchPath] at hget hdl hocr
                    simp [Terra.Handler, hparse, htext, hlen, hidx, hget, hfp, hdl, hocr, h3]
                  | ok ocrText =>
                    right
                    have hreach : Terra.ReachesPrompt w req ocrText tr3 :=
                      ⟨photo, get, filePathResp, tr2, hlast, hget, hfp, hdl, hocr⟩
                    refine ⟨_, _, _, (Terra.doPrompt w ocrText tr3).2, ?_,
                      terra_handler_photo_eq w event req hparse htext ocrText tr3 hreach⟩
                    rw [terra_doPrompt_sentMessages]
                    exact h3
      · cases hcmd : Terra.predefinedAnswers.lookup req.Message.Text with
        | none =>
          right
          refine ⟨_, _, _, (Terra.doPrompt w req.Message.Text []).2, ?_,
            terra_handler_text_eq w event req hparse htext hcmd⟩
          rw [terra_doPrompt_sentMessages]
          rfl
        | some predefined =>
          right
          refine ⟨req.Message.ChatID, req.Message.ID, predefined, [], rfl, ?_⟩
          simp only [Terra.Handler, hparse, htext, hcmd, ne_eq, not_false_eq_true, if_true]

/-- A text longer than 4096 bytes whose first chunk is accepted and whose second chunk is
answered with a status of 300 or above: `sendReply` returns the error built from the
second answer, after both posts. -/
theorem sendReply_second_chunk_refused (w : World) (chatID replyToMsgID : Int)
    (text : GoString) (pre : Trace) (resp1 resp2 : HttpResponse)
    (hlen : text.length > 4096)
    (h1 : w.http pre (sendMsgRequest (w.getenv (goStr "TG_API_KEY")) chatID
      (text.take 4096) replyToMsgID) = .ok resp1)
    (hc1 : resp1.StatusCode < 300)
    (h2 : w.http
      (pre ++ [Event.http (sendMsgRequest (w.getenv (goStr "TG_API_KEY")) chatID
        (text.take 4096) replyToMsgID) (.ok resp1)])
      (sendMsgRequest (w.getenv (goStr "TG_API_KEY")) chatID (text.drop 4096) replyToMsgID)
      = .ok resp2)
    (hc2 : resp2.StatusCode ≥ 300) :
    sendReply w chatID text replyToMsgID pre
      = (some (goStr "failed to send reply tg message: " ++ resp2.Status ++ goStr " "
            ++ resp2.Body),
         pre ++ [Event.http (sendMsgRequest (w.getenv (goStr "TG_API_KEY")) chatID
              (text.take 4096) replyToMsgID) (.ok resp1),
            Event.http (sendMsgRequest (w.getenv (goStr "TG_API_KEY")) chatID
              (text.drop 4096) replyToMsgID) (.ok resp2)]) := by
  have hn1 : ¬ resp1.StatusCode ≥ 300 := by omega
  simp [sendReply, maxMessageLen, hlen, sendReplyLoop, h1, hn1, h2, hc2]

/-- The answers of `halfSentWorld` to a post of a chat message. -/
theorem halfSentWorld_post (reply : GoString) (tr : Trace) (req : HttpRequest) (m : SendMsgReq)
    (hb : req.Body = Payload.sendMsg m) :
    (halfSentWorld reply).http tr req
      = if (sentMessages tr).isEmpty then
          .ok { StatusCode := 200, Status := goStr "200 OK", Body := goStr "ok" }
        else
          .ok { StatusCode := 429, Status := goStr "429 Too Many Requests",
                Body := goStr "retry later" } := by
  simp [halfSentWorld, hb]

/-- In the world `halfSentWorld reply` with a reply longer than 4096 bytes, `Handler`
(index.go) returns the send error of the second chunk after the first chunk was delivered. -/
theorem halfSentWorld_run (reply : GoString) (hlen : reply.length > 4096) :
    (Terra.Handler (halfSentWorld reply) { Body := [] }).1
      = Outcome.error (wrapError "failed to send reply"
          (goStr "failed to send reply tg message: 429 Too Many Requests retry later")) ∧
    deliveredMessages (Terra.Handler (halfSentWorld reply) { Body := [] }).2
      = [{ ChatId := 9, Text := jsonString (reply.take 4096), ReplyToMessageId := 3,
           ParseMode := goStr "Markdown" }] := by
  have heq := terra_handler_text_eq (halfSentWorld reply) { Body := [] } hiRequest rfl
    (by decide) (by decide)
  have hp : (Terra.doPrompt (halfSentWorld reply) hiRequest.Message.Text []).1
      = .ok reply := rfl
  have hpre :
      sentMessages (Terra.doPrompt (halfSentWorld reply) hiRequest.Message.Text []).2 = [] := by
    rw [terra_doPrompt_sentMessages]
    rfl
  have hdpre := deliveredMessages_of_sentMessages_nil _ hpre
  have h1 : (halfSentWorld reply).http
      (Terra.doPrompt (halfSentWorld reply) hiRequest.Message.Text []).2
      (sendMsgRequest ((halfSentWorld reply).getenv (goStr "TG_API_KEY")) 9
        (reply.take 4096) 3)
      = .ok { StatusCode := 200, Status := goStr "200 OK", Body := goStr "ok" } := by
    rw [halfSentWorld_post reply _ _ _ rfl, hpre]
    rfl
  have h2 : (halfSentWorld reply).http
      ((Terra.doPrompt (halfSentWorld reply) hiRequest.Message.Text []).2 ++
        [Event.http (sendMsgRequest ((halfSentWorld reply).getenv (goStr "TG_API_KEY")) 9
          (reply.take 4096) 3)
          (.ok { StatusCode := 200, Status := goStr "200 OK", Body := goStr "ok" })])
      (sendMsgRequest ((halfSentWorld reply).getenv (goStr "TG_API_KEY")) 9
        (reply.drop 4096) 3)
      = .ok { StatusCode := 429, Status := goStr "429 Too Many Requests",
              Body := goStr "retry later" } := by
    rw [halfSentWorld_post reply _ _ _ rfl, sentMessages_append, hpre, sentMessages_post]
    rfl
  have hs := sendReply_second_chunk_refused (halfSentWorld reply) 9 3 reply
    (Terra.doPrompt (halfSentWorld reply) hiRequest.Message.Text []).2 _ _ hlen h1
    (by decide) h2 (by decide)
  have hmsg : goStr "failed to send reply tg message: " ++ goStr "429 Too Many Requests"
      ++ goStr " " ++ goStr "retry later"
      = goStr "failed to send reply tg message: 429 Too Many Requests retry later" := by
    decide
  rw [hp] at heq
  have hrun : Terra.Handler (halfSentWorld reply) { Body := [] }
      = match sendReply (halfSentWorld reply) 9 reply 3
          (Terra.doPrompt (halfSentWorld reply) hiRequest.Message.Text []).2 with
        | (some err, tr) => (Outcome.error (wrapError "failed to send reply" err), tr)
        | (none, tr) => (Outcome.ok { StatusCode := 200 }, tr) := heq
  rw [hrun, hs]
  constructor
  · show Outcome.error (wrapError "failed to send reply" _) = _
    rw [hmsg]
  · show deliveredMessages
      ((Terra.doPrompt (halfSentWorld reply) hiRequest.Message.Text []).2 ++
        ([Event.http (sendMsgRequest ((halfSentWorld reply).getenv (goStr "TG_API_KEY")) 9
            (reply.take 4096) 3)
            (.ok { StatusCode := 200, Status := goStr "200 OK", Body := goStr "ok" })] ++
          [Event.http (sendMsgRequest ((halfSentWorld reply).getenv (goStr "TG_API_KEY")) 9
            (reply.drop 4096) 3)
            (.ok { StatusCode := 429, Status := goStr "429 Too Many Requests",
                   Body := goStr "retry later" })])) = _
    rw [deliveredMessages_append, deliveredMessages_append, hdpre, deliveredMessages_post,
      deliveredMessages_post]
    rfl

/-- When every post succeeds, `sendReply` posts one message for a text of at most 4096
bytes, and two, for the first 4096 bytes and for the rest, for a longer text. -/
theorem sendReply_chunks_posted (w : World) (h : PostsSucceed w) (chatID replyToMsgID : Int)
    (text : GoString) (tr : Trace) :
    (text.length ≤ 4096 →
      sentMessages (sendReply w chatID text replyToMsgID tr).2
        = sentMessages tr ++ [chunkMessage chatID replyToMsgID text] ∧
      (sendReply w chatID text replyToMsgID tr).2.length = tr.length + 1) ∧
    (text.length > 4096 →
      sentMessages (sendReply w chatID text replyToMsgID tr).2
        = sentMessages tr ++
            [chunkMessage chatID replyToMsgID (text.take 4096),
             chunkMessage chatID replyToMsgID (text.drop 4096)] ∧
      (text.take 4096).length = 4096 ∧
      (text.drop 4096).length = text.length - 4096 ∧
      text.take 4096 ++ text.drop 4096 = text ∧
      (sendReply w chatID text replyToMsgID tr).2.length = tr.length + 2) := by
  constructor
  · intro hlen
    have hnot : ¬ text.length > maxMessageLen := by simp [maxMessageLen]; omega
    obtain ⟨_, h2, h3⟩ :=
      sendReplyLoop_of_postsSucceed w h (w.getenv (goStr "TG_API_KEY")) chatID replyToMsgID
        [text] tr
    simp only [sendReply, hnot, if_false]
    exact ⟨by simpa using h2, by simpa using h3⟩
  · intro hlen
    have hgt : text.length > maxMessageLen := by simpa [maxMessageLen] using hlen
    obtain ⟨_, h2, h3⟩ :=
      sendReplyLoop_of_postsSucceed w h (w.getenv (goStr "TG_API_KEY")) chatID replyToMsgID
        [text.take maxMessageLen, text.drop maxMessageLen] tr
    simp only [sendReply, hgt, if_true]
    refine ⟨by simpa [maxMessageLen] using h2, ?_, ?_, ?_, by simpa using h3⟩
    · simp; omega
    · simp
    · simp

/-! ## Theorems -/

/-- C1 as stated fails: in a world where every post succeeds, the text `cutRuneText` of
4097 bytes is cut inside its last letter; the two messages posted hold 4098 and 3 bytes,
the halves `D1` and `8F` of the letter having become U+FFFD each, and not the first 4096
bytes and the remaining byte of the text. -/
theorem sendReply_chunking_counterexample :
    PostsSucceed calmWorld ∧
    cutRuneText.length = 4097 ∧
    cutRuneText.take 4096 = List.replicate 4095 65 ++ [0xD1] ∧
    cutRuneText.drop 4096 = [0x8F] ∧
    sentMessages (sendReply calmWorld 42 cutRuneText 1 []).2
      = [{ ChatId := 42, Text := List.replicate 4095 65 ++ [0xEF, 0xBF, 0xBD],
           ReplyToMessageId := 1, ParseMode := goStr "Markdown" },
         { ChatId := 42, Text := [0xEF, 0xBF, 0xBD], ReplyToMessageId := 1,
           ParseMode := goStr "Markdown" }] ∧
    sentMessages (sendReply calmWorld 42 cutRuneText 1 []).2
      ≠ [{ ChatId := 42, Text := cutRuneText.take 4096, ReplyToMessageId := 1,
           ParseMode := goStr "Markdown" },
         { ChatId := 42, Text := cutRuneText.drop 4096, ReplyToMessageId := 1,
           ParseMode := goStr "Markdown" }] := by
  have hw : PostsSucceed calmWorld := fun _ _ _ _ => ⟨_, rfl, by decide⟩
  have hlen : cutRuneText.length = 4097 := by
    rw [cutRuneText, List.length_append, List.length_replicate]
    rfl
  have htake : cutRuneText.take 4096 = List.replicate 4095 65 ++ [0xD1] := by
    rw [cutRuneText, List.take_append_eq_append_take, List.take_replicate,
      List.length_replicate]
    rfl
  have hdrop : cutRuneText.drop 4096 = [0x8F] := by
    rw [cutRuneText, List.drop_append_eq_append_drop, List.drop_replicate,
      List.length_replicate]
    rfl
  have hposted := (sendReply_chunks_posted calmWorld hw 42 1 cutRuneText []).2
    (by rw [hlen]; decide)
  have h1 : jsonString (List.replicate 4095 65 ++ [0xD1])
      = List.replicate 4095 65 ++ [0xEF, 0xBF, 0xBD] := by
    rw [jsonString_ascii]
    rfl
  have h2 : jsonString [0x8F] = [0xEF, 0xBF, 0xBD] := rfl
  have hsent : sentMessages (sendReply calmWorld 42 cutRuneText 1 []).2
      = [{ ChatId := 42, Text := List.replicate 4095 65 ++ [0xEF, 0xBF, 0xBD],
           ReplyToMessageId := 1, ParseMode := goStr "Markdown" },
         { ChatId := 42, Text := [0xEF, 0xBF, 0xBD], ReplyToMessageId := 1,
           ParseMode := goStr "Markdown" }] := by
    rw [hposted.1, chunkMessage_eq, chunkMessage_eq, htake, hdrop, h1, h2]
    rfl
  refine ⟨hw, hlen, htake, hdrop, hsent, ?_⟩
  intro hclaim
  rw [hsent, hdrop] at hclaim
  have hsecond := (List.cons.inj (List.cons.inj hclaim).2).1
  have htext := congrArg SendMsgReq.Text hsecond
  exact absurd htext (by decide)

/-- C1, amended: `sendReply` chunking.  For every chat id, reply-to id and text, when
every post succeeds: a text of at most 4096 bytes is posted as exactly one message built
from the whole text; a longer text is posted as exactly two messages, in order, built
from its first 4096 bytes and its remaining `L - 4096` bytes; the text of a posted
message is its chunk as `json.Marshal` writes it, which is the chunk itself when the
chunk is valid UTF-8 and otherwise the chunk with every byte outside a valid UTF-8
sequence replaced by U+FFFD; every message carries the chat id and the reply-to id passed
in, and nothing else is added to the transcript. -/
theorem sendReply_chunking (w : World) (h : PostsSucceed w) (chatID replyToMsgID : Int)
    (text : GoString) (tr : Trace) :
    (text.length ≤ 4096 →
      sentMessages (sendReply w chatID text replyToMsgID tr).2
        = sentMessages tr ++
            [{ ChatId := chatID, Text := jsonString text, ReplyToMessageId := replyToMsgID,
               ParseMode := goStr "Markdown" }] ∧
      (sendReply w chatID text replyToMsgID tr).2.length = tr.length + 1) ∧
    (text.length > 4096 →
      sentMessages (sendReply w chatID text replyToMsgID tr).2
        = sentMessages tr ++
            [{ ChatId := chatID, Text := jsonString (text.take 4096),
               ReplyToMessageId := replyToMsgID, ParseMode := goStr "Markdown" },
             { ChatId := chatID, Text := jsonString (text.drop 4096),
               ReplyToMessageId := replyToMsgID, ParseMode := goStr "Markdown" }] ∧
      (text.take 4096).length = 4096 ∧
      (text.drop 4096).length = text.length - 4096 ∧
      text.take 4096 ++ text.drop 4096 = text ∧
      (sendReply w chatID text replyToMsgID tr).2.length = tr.length + 2) ∧
    (∀ chunk : GoString, validUTF8 chunk = true → jsonString chunk = chunk) := by
  have hp := sendReply_chunks_posted w h chatID replyToMsgID text tr
  refine ⟨?_, ?_, jsonString_of_valid⟩
  · intro hlen
    have h1 := hp.1 hlen
    rw [chunkMessage_eq] at h1
    exact h1
  · intro hlen
    have h2 := hp.2 hlen
    rw [chunkMessage_eq, chunkMessage_eq] at h2
    exact h2

/-- Witness of C1, amended: in a world where every post succeeds, the text `hi` is posted
whole and a text of 4097 letters `A` is posted as 4096 letters followed by 1 letter. -/
theorem sendReply_chunking_witness :
    PostsSucceed calmWorld ∧
    sentMessages (sendReply calmWorld 42 (goStr "hi") 1 []).2
      = [{ ChatId := 42, Text := goStr "hi", ReplyToMessageId := 1,
           ParseMode := goStr "Markdown" }] ∧
    sentMessages (sendReply calmWorld 42 (List.replicate 4097 65) 1 []).2
      = [{ ChatId := 42, Text := List.replicate 4096 65, ReplyToMessageId := 1,
           ParseMode := goStr "Markdown" },
         { ChatId := 42, Text := List.replicate 1 65, ReplyToMessageId := 1,
           ParseMode := goStr "Markdown" }] := by
  have hw : PostsSucceed calmWorld := fun _ _ _ _ => ⟨_, rfl, by decide⟩
  have hall := sendReply_chunking calmWorld hw 42 1 (goStr "hi") []
  have hs := (hall.1 (by decide)).1
  have hl := ((sendReply_chunking calmWorld hw 42 1 (List.replicate 4097 65) []).2.1
    longText_length).1
  have ht : List.take 4096 (List.replicate 4097 (65 : UInt8)) = List.replicate 4096 65 := by
    rw [List.take_replicate]; rfl
  have hd : List.drop 4096 (List.replicate 4097 (65 : UInt8)) = List.replicate 1 65 := by
    rw [List.drop_replicate]
  have ha : ∀ n : Nat, jsonString (List.replicate n 65) = List.replicate n 65 := by
    intro n
    have := jsonString_ascii n []
    rw [List.append_nil] at this
    rw [this]
    exact List.append_nil _
  have hhi : jsonString (goStr "hi") = goStr "hi" := hall.2.2 (goStr "hi") (by decide)
  rw [hhi] at hs
  rw [ht, hd, ha, ha] at hl
  exact ⟨hw, hs, hl⟩

/-- C2: command path of `Handler` (index.go).  For every payload whose text is a key of
`predefinedAnswers` (`/help` or `/start`), whatever its photo list holds, the only
interaction of `Handler` is one post of `defaultAnswer` addressed to the chat id and the
message id of the payload: no file-metadata lookup, no download, no OCR request and no
completion request is made. -/
theorem command_path_sends_onboarding (w : World) (event : APIGatewayRequest) (req : Terra.Request)
    (hparse : w.unmarshalTerraRequest event.Body = .ok (some req))
    (hkey : req.Message.Text ∈ Terra.predefinedAnswers.map Prod.fst) :
    Terra.predefinedAnswers.map Prod.fst = [goStr "/help", goStr "/start"] ∧
    sentMessages (Terra.Handler w event).2
      = [{ ChatId := req.Message.ChatID, Text := Terra.defaultAnswer,
           ReplyToMessageId := req.Message.ID, ParseMode := goStr "Markdown" }] ∧
    fileLookups (Terra.Handler w event).2 = [] ∧
    downloads (Terra.Handler w event).2 = [] ∧
    ocrRequests (Terra.Handler w event).2 = [] ∧
    completionRequests (Terra.Handler w event).2 = [] ∧
    (Terra.Handler w event).2.length = 1 :=
  terra_handler_command_observations w event req hparse hkey

/-- Witness of C2: the update `/help` in message 1 of chat 42. -/
theorem command_path_sends_onboarding_witness :
    helpRequest.Message.Text ∈ Terra.predefinedAnswers.map Prod.fst ∧
    sentMessages (Terra.Handler helpWorld { Body := [] }).2
      = [{ ChatId := 42, Text := Terra.defaultAnswer, ReplyToMessageId := 1,
           ParseMode := goStr "Markdown" }] ∧
    completionRequests (Terra.Handler helpWorld { Body := [] }).2 = [] :=
  have hkey : helpRequest.Message.Text ∈ Terra.predefinedAnswers.map Prod.fst := by
    simp [helpRequest, Terra.predefinedAnswers]
  have h := command_path_sends_onboarding helpWorld { Body := [] } helpRequest rfl hkey
  ⟨hkey, h.2.1, h.2.2.2.2.2.1⟩

/-- C3 at its failing input: the free text `hi` (message 3 of chat 9) in a world
without `setup.txt`.  `Handler` (index.go) issues no completion request at all and posts
the apology; the claim asks for exactly one completion request carrying `hi`. -/
theorem terra_handler_free_text_without_setup :
    noSetupWorld.unmarshalTerraRequest [] = .ok (some hiRequest) ∧
    hiRequest.Message.Text ≠ [] ∧
    Terra.predefinedAnswers.lookup hiRequest.Message.Text = none ∧
    completionRequests (Terra.Handler noSetupWorld { Body := [] }).2 = [] ∧
    sentMessages (Terra.Handler noSetupWorld { Body := [] }).2
      = [{ ChatId := 9,
           Text := goStr "Я не смог подготовить ответ на экзаменационный вопрос.",
           ReplyToMessageId := 3, ParseMode := goStr "Markdown" }] :=
  ⟨rfl, by decide, by decide, by decide, by decide⟩

/-- C7: unsupported-input path of `Handler` (index.go).  For every payload with empty
text and an empty photo list, the only interaction of `Handler` is one post of the fixed
text addressed to the chat id and the message id of the payload: no file-metadata lookup,
download, OCR request or completion request is made. -/
theorem unsupported_input_sends_fixed_reply (w : World) (event : APIGatewayRequest) (req : Terra.Request)
    (hparse : w.unmarshalTerraRequest event.Body = .ok (some req))
    (htext : req.Message.Text = []) (hphoto : req.Message.Photo = []) :
    sentMessages (Terra.Handler w event).2
      = [{ ChatId := req.Message.ChatID,
           Text := goStr "Я могу обработать только текстовое сообщение или фотографию.",
           ReplyToMessageId := req.Message.ID, ParseMode := goStr "Markdown" }] ∧
    fileLookups (Terra.Handler w event).2 = [] ∧
    downloads (Terra.Handler w event).2 = [] ∧
    ocrRequests (Terra.Handler w event).2 = [] ∧
    completionRequests (Terra.Handler w event).2 = [] ∧
    (Terra.Handler w event).2.length = 1 := by
  rw [terra_handler_unsupported_eq w event req hparse htext hphoto, reply_transcript]
  have h := sendReply_short_observations w req.Message.ChatID req.Message.ID
    (goStr "Я могу обработать только текстовое сообщение или фотографию.") []
    unsupported_length
  exact ⟨by simpa [chunkMessage, sentMessages] using h.1,
    by simpa [fileLookups] using h.2.1, by simpa [downloads] using h.2.2.1,
    by simpa [ocrRequests] using h.2.2.2.1,
    by simpa [completionRequests] using h.2.2.2.2.1, by simpa using h.2.2.2.2.2⟩

/-- Witness of C7: an update with neither text nor photo, message 7 of chat 5. -/
theorem unsupported_input_sends_fixed_reply_witness :
    blankRequest.Message.Text = [] ∧ blankRequest.Message.Photo = [] ∧
    sentMessages (Terra.Handler blankWorld { Body := [] }).2
      = [{ ChatId := 5,
           Text := goStr "Я могу обработать только текстовое сообщение или фотографию.",
           ReplyToMessageId := 7, ParseMode := goStr "Markdown" }] :=
  ⟨rfl, rfl, (unsupported_input_sends_fixed_reply blankWorld { Body := [] } blankRequest rfl rfl rfl).1⟩

/-- C4: completion failures are degraded, not fatal, in `Handler` (index.go).  On the
free-text path and on the photo path, whenever `doPrompt` returns an error, the one
message `Handler` posts is the fixed apology, addressed to the chat id and message id of
the payload, and when that post succeeds (it is answered with a status below 300)
`Handler` returns a response with `StatusCode` 200 and no error. -/
theorem terra_handler_degrades (w : World) (event : APIGatewayRequest) (req : Terra.Request)
    (hparse : w.unmarshalTerraRequest event.Body = .ok (some req)) :
    (req.Message.Text ≠ [] → Terra.predefinedAnswers.lookup req.Message.Text = none →
      ∀ err : GoError, (Terra.doPrompt w req.Message.Text []).1 = .error err →
        sentMessages (Terra.Handler w event).2
          = [{ ChatId := req.Message.ChatID,
               Text := goStr "Я не смог подготовить ответ на экзаменационный вопрос.",
               ReplyToMessageId := req.Message.ID, ParseMode := goStr "Markdown" }] ∧
        (∀ resp : HttpResponse,
          w.http (Terra.doPrompt w req.Message.Text []).2
            (sendMsgRequest (w.getenv (goStr "TG_API_KEY")) req.Message.ChatID
              (goStr "Я не смог подготовить ответ на экзаменационный вопрос.")
              req.Message.ID) = .ok resp →
          resp.StatusCode < 300 →
          (Terra.Handler w event).1 = Outcome.ok { StatusCode := 200 })) ∧
    (req.Message.Text = [] →
      ∀ (ocrText : GoString) (tr3 : Trace), Terra.ReachesPrompt w req ocrText tr3 →
      ∀ err : GoError, (Terra.doPrompt w ocrText tr3).1 = .error err →
        sentMessages (Terra.Handler w event).2
          = [{ ChatId := req.Message.ChatID,
               Text := goStr "Я не смог подготовить ответ на экзаменационный вопрос.",
               ReplyToMessageId := req.Message.ID, ParseMode := goStr "Markdown" }] ∧
        (∀ resp : HttpResponse,
          w.http (Terra.doPrompt w ocrText tr3).2
            (sendMsgRequest (w.getenv (goStr "TG_API_KEY")) req.Message.ChatID
              (goStr "Я не смог подготовить ответ на экзаменационный вопрос.")
              req.Message.ID) = .ok resp →
          resp.StatusCode < 300 →
          (Terra.Handler w event).1 = Outcome.ok { StatusCode := 200 })) := by
  constructor
  · intro htext hcmd err herr
    rw [terra_handler_text_eq w event req hparse htext hcmd, herr]
    have h := reply_step w req.Message.ChatID req.Message.ID
      (goStr "Я не смог подготовить ответ на экзаменационный вопрос.")
      (Terra.doPrompt w req.Message.Text []).2 apology_length
    rw [terra_doPrompt_sentMessages] at h
    exact ⟨by simpa [chunkMessage, sentMessages] using h.1, h.2⟩
  · intro htext ocrText tr3 hreach err herr
    rw [terra_handler_photo_eq w event req hparse htext ocrText tr3 hreach, herr]
    have h := reply_step w req.Message.ChatID req.Message.ID
      (goStr "Я не смог подготовить ответ на экзаменационный вопрос.")
      (Terra.doPrompt w ocrText tr3).2 apology_length
    rw [terra_doPrompt_sentMessages, terra_reaches_sentMessages w req ocrText tr3 hreach] at h
    exact ⟨by simpa [chunkMessage] using h.1, h.2⟩

/-- Witness of C4: the text `hi` when `setup.txt` is missing, and a photo when the
completion service answers `500`; in both cases the apology is posted and the answer is
200. -/
theorem terra_handler_degrades_witness :
    (noSetupWorld.unmarshalTerraRequest [] = .ok (some hiRequest) ∧
      sentMessages (Terra.Handler noSetupWorld { Body := [] }).2
        = [{ ChatId := 9,
             Text := goStr "Я не смог подготовить ответ на экзаменационный вопрос.",
             ReplyToMessageId := 3, ParseMode := goStr "Markdown" }] ∧
      (Terra.Handler noSetupWorld { Body := [] }).1 = Outcome.ok { StatusCode := 200 }) ∧
    (photoFailWorld.unmarshalTerraRequest [] = .ok (some photoRequest) ∧
      sentMessages (Terra.Handler photoFailWorld { Body := [] }).2
        = [{ ChatId := 8,
             Text := goStr "Я не смог подготовить ответ на экзаменационный вопрос.",
             ReplyToMessageId := 11, ParseMode := goStr "Markdown" }] ∧
      (Terra.Handler photoFailWorld { Body := [] }).1 = Outcome.ok { StatusCode := 200 }) := by
  constructor
  · have h := (terra_handler_degrades noSetupWorld { Body := [] } hiRequest rfl).1
      (by decide) (by decide)
      (goStr "open /function/storage/images/setup.txt: no such file or directory") rfl
    exact ⟨rfl, h.1,
      h.2 { StatusCode := 200, Status := goStr "200 OK", Body := goStr "ok" } rfl (by decide)⟩
  · have hreach : Terra.ReachesPrompt photoFailWorld photoRequest (goStr "ok")
        (Terra.proceedOCR photoFailWorld (scratchPath photoFailWorld (goStr "big"))
          (downloadFile photoFailWorld (scratchPath photoFailWorld (goStr "big"))
            (photoFailWorld.pathJoin (downloadFileURLPattern (goStr "T")) (goStr "ok"))
            [Event.http (fileLookupRequest photoFailWorld (goStr "big"))
              (.ok { StatusCode := 200, Status := goStr "200 OK", Body := goStr "ok" })]).2).2 :=
      ⟨{ ID := goStr "big", Width := 1280, Height := 1280 },
        { StatusCode := 200, Status := goStr "200 OK", Body := goStr "ok" },
        { Result := { FilePath := goStr "ok" } }, _, rfl, rfl, rfl, rfl, rfl⟩
    have h := (terra_handler_degrades photoFailWorld { Body := [] } photoRequest rfl).2 rfl
      (goStr "ok") _ hreach
      (goStr "yagpt request failed with status: 500 Internal Server Error") rfl
    exact ⟨rfl, h.1,
      h.2 { StatusCode := 200, Status := goStr "200 OK", Body := goStr "ok" } rfl (by decide)⟩

/-- C5: empty-alternatives sentinel.  Whenever the completion service answers a request
of `doPrompt` with a status below 300 (so with every success status) and a body that
decodes, `doPrompt` (index.go and main.go) returns `no answer :(` without error when the
body holds zero alternatives and the text of the first alternative otherwise; and in the
zero-alternatives case the one message `Handler` posts (free-text and photo path of
index.go, photo path of main.go) is that sentinel, not the apology. -/
theorem empty_alternatives_sentinel (w : World) :
    (∀ (prompt : GoString) (tr : Trace) (req : HttpRequest) (resp : HttpResponse)
        (r : YaGPTResponse),
      (Terra.doPrompt w prompt tr).2.getLast? = some (Event.http req (.ok resp)) →
      resp.StatusCode < 300 → w.unmarshalYaGPTResponse resp.Body = .ok r →
      (r.Result.Alternatives = [] →
        (Terra.doPrompt w prompt tr).1 = .ok (goStr "no answer :(")) ∧
      (∀ (alt : YaGPTAlternative) (rest : List YaGPTAlternative),
        r.Result.Alternatives = alt :: rest →
        (Terra.doPrompt w prompt tr).1 = .ok alt.Message.Text)) ∧
    (∀ (prompt : GoString) (tr : Trace) (req : HttpRequest) (resp : HttpResponse)
        (r : YaGPTResponse),
      (Internal.doPrompt w prompt tr).2.getLast? = some (Event.http req (.ok resp)) →
      resp.StatusCode < 300 → w.unmarshalYaGPTResponse resp.Body = .ok r →
      (r.Result.Alternatives = [] →
        (Internal.doPrompt w prompt tr).1 = .ok (goStr "no answer :(")) ∧
      (∀ (alt : YaGPTAlternative) (rest : List YaGPTAlternative),
        r.Result.Alternatives = alt :: rest →
        (Internal.doPrompt w prompt tr).1 = .ok alt.Message.Text)) ∧
    (∀ (event : APIGatewayRequest) (treq : Terra.Request),
      w.unmarshalTerraRequest event.Body = .ok (some treq) →
      treq.Message.Text ≠ [] → Terra.predefinedAnswers.lookup treq.Message.Text = none →
      ∀ (req : HttpRequest) (resp : HttpResponse) (r : YaGPTResponse),
      (Terra.doPrompt w treq.Message.Text []).2.getLast? = some (Event.http req (.ok resp)) →
      resp.StatusCode < 300 → w.unmarshalYaGPTResponse resp.Body = .ok r →
      r.Result.Alternatives = [] →
      sentMessages (Terra.Handler w event).2
        = [{ ChatId := treq.Message.ChatID, Text := goStr "no answer :(",
             ReplyToMessageId := treq.Message.ID, ParseMode := goStr "Markdown" }]) ∧
    (∀ (event : APIGatewayRequest) (treq : Terra.Request),
      w.unmarshalTerraRequest event.Body = .ok (some treq) →
      treq.Message.Text = [] →
      ∀ (ocrText : GoString) (tr3 : Trace), Terra.ReachesPrompt w treq ocrText tr3 →
      ∀ (req : HttpRequest) (resp : HttpResponse) (r : YaGPTResponse),
      (Terra.doPrompt w ocrText tr3).2.getLast? = some (Event.http req (.ok resp)) →
      resp.StatusCode < 300 → w.unmarshalYaGPTResponse resp.Body = .ok r →
      r.Result.Alternatives = [] →
      sentMessages (Terra.Handler w event).2
        = [{ ChatId := treq.Message.ChatID, Text := goStr "no answer :(",
             ReplyToMessageId := treq.Message.ID, ParseMode := goStr "Markdown" }]) ∧
    (∀ (event : APIGatewayRequest) (ireq : Internal.Request),
      w.unmarshalInternalRequest event.Body = .ok (some ireq) →
      ∀ (ocrText : GoString) (tr3 : Trace), Internal.ReachesPrompt w ireq ocrText tr3 →
      ∀ (req : HttpRequest) (resp : HttpResponse) (r : YaGPTResponse),
      (Internal.doPrompt w ocrText tr3).2.getLast? = some (Event.http req (.ok resp)) →
      resp.StatusCode < 300 → w.unmarshalYaGPTResponse resp.Body = .ok r →
      r.Result.Alternatives = [] →
      sentMessages (Internal.Handler w event).2
        = [{ ChatId := ireq.Message.ChatID, Text := goStr "no answer :(",
             ReplyToMessageId := ireq.Message.ID, ParseMode := goStr "Markdown" }]) := by
  refine ⟨?_, ?_, ?_, ?_, ?_⟩
  · intro prompt tr req resp r hlast hcode hdecode
    have h := terra_doPrompt_answered w prompt tr req resp r hlast hcode hdecode
    constructor
    · intro hnil
      rw [h, hnil]
    · intro alt rest hcons
      rw [h, hcons]
  · intro prompt tr req resp r hlast hcode hdecode
    have h := internal_doPrompt_answered w prompt tr req resp r hlast hcode hdecode
    constructor
    · intro hnil
      rw [h, hnil]
    · intro alt rest hcons
      rw [h, hcons]
  · intro event treq hparse htext hcmd req resp r hlast hcode hdecode hnil
    have h := terra_doPrompt_answered w treq.Message.Text [] req resp r hlast hcode hdecode
    rw [hnil] at h
    rw [terra_handler_text_eq w event treq hparse htext hcmd, h]
    have hs := reply_step w treq.Message.ChatID treq.Message.ID (goStr "no answer :(")
      (Terra.doPrompt w treq.Message.Text []).2 sentinel_length
    rw [terra_doPrompt_sentMessages] at hs
    simpa [chunkMessage, sentMessages] using hs.1
  · intro event treq hparse htext ocrText tr3 hreach req resp r hlast hcode hdecode hnil
    have h := terra_doPrompt_answered w ocrText tr3 req resp r hlast hcode hdecode
    rw [hnil] at h
    rw [terra_handler_photo_eq w event treq hparse htext ocrText tr3 hreach, h]
    have hs := reply_step w treq.Message.ChatID treq.Message.ID (goStr "no answer :(")
      (Terra.doPrompt w ocrText tr3).2 sentinel_length
    rw [terra_doPrompt_sentMessages, terra_reaches_sentMessages w treq ocrText tr3 hreach] at hs
    simpa [chunkMessage] using hs.1
  · intro event ireq hparse ocrText tr3 hreach req resp r hlast hcode hdecode hnil
    have h := internal_doPrompt_answered w ocrText tr3 req resp r hlast hcode hdecode
    rw [hnil] at h
    rw [internal_handler_photo_eq w event ireq hparse ocrText tr3 hreach (goStr "no answer :(") h]
    have hs := reply_step w ireq.Message.ChatID ireq.Message.ID (goStr "no answer :(")
      (Internal.doPrompt w ocrText tr3).2 sentinel_length
    rw [internal_doPrompt_sentMessages,
      internal_reaches_sentMessages w ireq ocrText tr3 hreach] at hs
    simpa [chunkMessage] using hs.1

/-- Witness of C5: with completion answers holding zero alternatives, `doPrompt` yields
the sentinel and `Handler` posts it (text `hi`, and a photo in both handlers); with the
one alternative `ok`, `doPrompt` yields `ok`. -/
theorem empty_alternatives_sentinel_witness :
    (Terra.doPrompt emptyAnswerWorld (goStr "hi") []).1 = .ok (goStr "no answer :(") ∧
    (Internal.doPrompt emptyAnswerWorld (goStr "hi") []).1 = .ok (goStr "no answer :(") ∧
    (Terra.doPrompt calmWorld (goStr "hi") []).1 = .ok (goStr "ok") ∧
    (Internal.doPrompt calmWorld (goStr "hi") []).1 = .ok (goStr "ok") ∧
    sentMessages (Terra.Handler emptyAnswerWorld { Body := [] }).2
      = [{ ChatId := 9, Text := goStr "no answer :(", ReplyToMessageId := 3,
           ParseMode := goStr "Markdown" }] ∧
    sentMessages (Terra.Handler photoEmptyWorld { Body := [] }).2
      = [{ ChatId := 8, Text := goStr "no answer :(", ReplyToMessageId := 11,
           ParseMode := goStr "Markdown" }] ∧
    sentMessages (Internal.Handler photoEmptyWorld { Body := [] }).2
      = [{ ChatId := 8, Text := goStr "no answer :(", ReplyToMessageId := 11,
           ParseMode := goStr "Markdown" }] := by
  have h := empty_alternatives_sentinel emptyAnswerWorld
  have hc := empty_alternatives_sentinel calmWorld
  have hp := empty_alternatives_sentinel photoEmptyWorld
  have hreachT : Terra.ReachesPrompt photoEmptyWorld photoRequest (goStr "ok")
      (Terra.proceedOCR photoEmptyWorld (scratchPath photoEmptyWorld (goStr "big"))
        (downloadFile photoEmptyWorld (scratchPath photoEmptyWorld (goStr "big"))
          (photoEmptyWorld.pathJoin (downloadFileURLPattern (goStr "T")) (goStr "ok"))
          [Event.http (fileLookupRequest photoEmptyWorld (goStr "big"))
            (.ok { StatusCode := 200, Status := goStr "200 OK", Body := goStr "ok" })]).2).2 :=
    ⟨{ ID := goStr "big", Width := 1280, Height := 1280 },
      { StatusCode := 200, Status := goStr "200 OK", Body := goStr "ok" },
      { Result := { FilePath := goStr "ok" } }, _, rfl, rfl, rfl, rfl, rfl⟩
  have hreachI : Internal.ReachesPrompt photoEmptyWorld photoRequestInternal (goStr "ok")
      (Internal.proceedOCR photoEmptyWorld (scratchPath photoEmptyWorld (goStr "big"))
        (downloadFile photoEmptyWorld (scratchPath photoEmptyWorld (goStr "big"))
          (photoEmptyWorld.pathJoin (downloadFileURLPattern (goStr "T")) (goStr "ok"))
          [Event.http (fileLookupRequest photoEmptyWorld (goStr "big"))
            (.ok { StatusCode := 200, Status := goStr "200 OK", Body := goStr "ok" })]).2).2 :=
    ⟨{ ID := goStr "big", Width := 1280, Height := 1280 },
      { StatusCode := 200, Status := goStr "200 OK", Body := goStr "ok" },
      { Result := { FilePath := goStr "ok" } }, _, rfl, rfl, rfl, rfl, rfl⟩
  refine ⟨?_, ?_, ?_, ?_, ?_, ?_, ?_⟩
  · exact (h.1 (goStr "hi") [] _
      { StatusCode := 200, Status := goStr "200 OK", Body := goStr "ok" }
      { Result := { Alternatives := [] } } rfl (by decide) rfl).1 rfl
  · exact (h.2.1 (goStr "hi") [] _
      { StatusCode := 200, Status := goStr "200 OK", Body := goStr "ok" }
      { Result := { Alternatives := [] } } rfl (by decide) rfl).1 rfl
  · exact (hc.1 (goStr "hi") [] _
      { StatusCode := 200, Status := goStr "200 OK", Body := goStr "ok" }
      { Result := { Alternatives := [{ Message := { Text := goStr "ok" } }] } }
      rfl (by decide) rfl).2 { Message := { Text := goStr "ok" } } [] rfl
  · exact (hc.2.1 (goStr "hi") [] _
      { StatusCode := 200, Status := goStr "200 OK", Body := goStr "ok" }
      { Result := { Alternatives := [{ Message := { Text := goStr "ok" } }] } }
      rfl (by decide) rfl).2 { Message := { Text := goStr "ok" } } [] rfl
  · exact h.2.2.1 { Body := [] } hiRequest rfl (by decide) (by decide) _
      { StatusCode := 200, Status := goStr "200 OK", Body := goStr "ok" }
      { Result := { Alternatives := [] } } rfl (by decide) rfl rfl
  · exact hp.2.2.2.1 { Body := [] } photoRequest rfl rfl (goStr "ok") _ hreachT _
      { StatusCode := 200, Status := goStr "200 OK", Body := goStr "ok" }
      { Result := { Alternatives := [] } } rfl (by decide) rfl rfl
  · exact hp.2.2.2.2 { Body := [] } photoRequestInternal rfl (goStr "ok") _ hreachI _
      { StatusCode := 200, Status := goStr "200 OK", Body := goStr "ok" }
      { Result := { Alternatives := [] } } rfl (by decide) rfl rfl

/-- C6: photo selection.  For every payload that reaches the photo path of `Handler`
(non-empty photo list and, in index.go, empty text) the index `len(Photo)-1` is in bounds
and holds the last entry of the list; the file-metadata request made is the one for the
`ID` of that entry, the scratch file of every download is `path.Join(localPath, ID) +
".jpg"` for that `ID`, and no lookup is made for the differing `ID` of an earlier
entry.  This holds for index.go and for main.go. -/
theorem photo_selection (w : World) (event : APIGatewayRequest) :
    (∀ req : Terra.Request, w.unmarshalTerraRequest event.Body = .ok (some req) →
      req.Message.Text = [] → req.Message.Photo ≠ [] →
      ∃ last : Photo,
        req.Message.Photo.getLast? = some last ∧
        req.Message.Photo.length - 1 < req.Message.Photo.length ∧
        req.Message.Photo[req.Message.Photo.length - 1]? = some last ∧
        fileLookups (Terra.Handler w event).2
          = [getFilePathURLPattern (w.getenv (goStr "TG_API_KEY")) last.ID] ∧
        (∀ args ∈ downloads (Terra.Handler w event).2,
          ∃ url, args = [url, goStr "--output", w.pathJoin localPath last.ID ++ goStr ".jpg"]) ∧
        (∀ (i : Nat) (p : Photo), i < req.Message.Photo.length - 1 →
          req.Message.Photo[i]? = some p → p.ID ≠ last.ID →
          getFilePathURLPattern (w.getenv (goStr "TG_API_KEY")) p.ID
            ∉ fileLookups (Terra.Handler w event).2)) ∧
    (∀ req : Internal.Request, w.unmarshalInternalRequest event.Body = .ok (some req) →
      req.Message.Photo ≠ [] →
      ∃ last : Photo,
        req.Message.Photo.getLast? = some last ∧
        req.Message.Photo.length - 1 < req.Message.Photo.length ∧
        req.Message.Photo[req.Message.Photo.length - 1]? = some last ∧
        fileLookups (Internal.Handler w event).2
          = [getFilePathURLPattern (w.getenv (goStr "TG_API_KEY")) last.ID] ∧
        (∀ args ∈ downloads (Internal.Handler w event).2,
          ∃ url, args = [url, goStr "--output", w.pathJoin localPath last.ID ++ goStr ".jpg"]) ∧
        (∀ (i : Nat) (p : Photo), i < req.Message.Photo.length - 1 →
          req.Message.Photo[i]? = some p → p.ID ≠ last.ID →
          getFilePathURLPattern (w.getenv (goStr "TG_API_KEY")) p.ID
            ∉ fileLookups (Internal.Handler w event).2)) := by
  constructor
  · intro req hparse htext hne
    obtain ⟨last, hlast, hlt, hidx⟩ := last_index_in_bounds req.Message.Photo hne
    obtain ⟨hlook, hdl⟩ := terra_handler_photo_observations w event req last hparse htext hidx
    refine ⟨last, hlast, hlt, hidx, hlook, hdl, ?_⟩
    intro i p _ _ hid hmem
    rw [hlook, List.mem_singleton] at hmem
    exact hid (getFilePathURLPattern_injective _ _ _ hmem)
  · intro req hparse hne
    obtain ⟨last, hlast, hlt, hidx⟩ := last_index_in_bounds req.Message.Photo hne
    obtain ⟨hlook, hdl⟩ := internal_handler_photo_observations w event req last hparse hidx
    refine ⟨last, hlast, hlt, hidx, hlook, hdl, ?_⟩
    intro i p _ _ hid hmem
    rw [hlook, List.mem_singleton] at hmem
    exact hid (getFilePathURLPattern_injective _ _ _ hmem)

/-- Witness of C6: a photo update with the sizes `small` and `big`; both handlers look
up `big` and never `small`. -/
theorem photo_selection_witness :
    (fileLookups (Terra.Handler photoWorld { Body := [] }).2
        = [getFilePathURLPattern (goStr "T") (goStr "big")] ∧
      getFilePathURLPattern (goStr "T") (goStr "small")
        ∉ fileLookups (Terra.Handler photoWorld { Body := [] }).2) ∧
    (fileLookups (Internal.Handler photoWorld { Body := [] }).2
        = [getFilePathURLPattern (goStr "T") (goStr "big")] ∧
      getFilePathURLPattern (goStr "T") (goStr "small")
        ∉ fileLookups (Internal.Handler photoWorld { Body := [] }).2) := by
  have h := photo_selection photoWorld { Body := [] }
  constructor
  · obtain ⟨last, hlast, _, _, hlook, _, hearlier⟩ :=
      h.1 photoRequest rfl rfl (by simp [photoRequest])
    have hbig : last = { ID := goStr "big", Width := 1280, Height := 1280 } := by
      simpa [photoRequest] using hlast.symm
    subst hbig
    exact ⟨hlook, hearlier 0 { ID := goStr "small", Width := 90, Height := 90 }
      (by simp [photoRequest]) rfl (by decide)⟩
  · obtain ⟨last, hlast, _, _, hlook, _, hearlier⟩ :=
      h.2 photoRequestInternal rfl (by simp [photoRequestInternal])
    have hbig : last = { ID := goStr "big", Width := 1280, Height := 1280 } := by
      simpa [photoRequestInternal] using hlast.symm
    subst hbig
    exact ⟨hlook, hearlier 0 { ID := goStr "small", Width := 90, Height := 90 }
      (by simp [photoRequestInternal]) rfl (by decide)⟩

/-- C8 at its failing input: the prompt `hi` in a world without `setup.txt`.  `doPrompt`
(index.go) returns the error of `os.Open` and issues no completion request; the claim asks
for a completion request with the hardcoded system prompt. -/
theorem terra_doPrompt_without_setup :
    Terra.doPrompt noSetupWorld (goStr "hi") []
      = (.error (goStr "open /function/storage/images/setup.txt: no such file or directory"),
         [Event.fileOpen (goStr "/function/storage/images/setup.txt")
            (.error
              (goStr "open /function/storage/images/setup.txt: no such file or directory"))]) ∧
    completionRequests (Terra.doPrompt noSetupWorld (goStr "hi") []).2 = [] :=
  ⟨rfl, rfl⟩

/-- C9 as stated fails: for the body of the example, whose text is `help`, `Handler`
(index.go) issues a completion request and posts the completion, not `defaultAnswer`. -/
theorem spec_example_counterexample :
    exampleWorld.unmarshalTerraRequest exampleBody = .ok (some exampleRequest) ∧
    completionRequests (Terra.Handler exampleWorld { Body := exampleBody }).2 ≠ [] ∧
    sentMessages (Terra.Handler exampleWorld { Body := exampleBody }).2
      = [{ ChatId := 42, Text := goStr "ok", ReplyToMessageId := 1,
           ParseMode := goStr "Markdown" }] ∧
    sentMessages (Terra.Handler exampleWorld { Body := exampleBody }).2
      ≠ [{ ChatId := 42, Text := Terra.defaultAnswer, ReplyToMessageId := 1,
           ParseMode := goStr "Markdown" }] :=
  ⟨rfl, by decide, by decide, by decide⟩

/-- C9, amended: for the inbound body whose text is the command `/help` (message 1 of
chat 42), decoded as `json.Unmarshal` does, `Handler` (index.go) makes exactly one send
call, to chat 42 replying to message 1, with the text `defaultAnswer`, and makes no OCR
request and no completion request. -/
theorem spec_example_command (w : World) (event : APIGatewayRequest)
    (hbody : event.Body = slashBody)
    (hdecode : w.unmarshalTerraRequest slashBody
      = .ok (some { Message := { ID := 1, ChatID := 42, Text := goStr "/help" } })) :
    sentMessages (Terra.Handler w event).2
      = [{ ChatId := 42, Text := Terra.defaultAnswer, ReplyToMessageId := 1,
           ParseMode := goStr "Markdown" }] ∧
    ocrRequests (Terra.Handler w event).2 = [] ∧
    completionRequests (Terra.Handler w event).2 = [] ∧
    (Terra.Handler w event).2.length = 1 := by
  have hkey : (goStr "/help") ∈ Terra.predefinedAnswers.map Prod.fst := by
    simp [Terra.predefinedAnswers]
  have h := terra_handler_command_observations w event
    { Message := { ID := 1, ChatID := 42, Text := goStr "/help" } } (by rw [hbody, hdecode]) hkey
  exact ⟨h.2.1, h.2.2.2.2.1, h.2.2.2.2.2.1, h.2.2.2.2.2.2⟩

/-- Witness of C9, amended: the body with `/help` in the world `exampleWorld`. -/
theorem spec_example_command_witness :
    exampleWorld.unmarshalTerraRequest slashBody
      = .ok (some { Message := { ID := 1, ChatID := 42, Text := goStr "/help" } }) ∧
    sentMessages (Terra.Handler exampleWorld { Body := slashBody }).2
      = [{ ChatId := 42, Text := Terra.defaultAnswer, ReplyToMessageId := 1,
           ParseMode := goStr "Markdown" }] ∧
    completionRequests (Terra.Handler exampleWorld { Body := slashBody }).2 = [] :=
  have hd : exampleWorld.unmarshalTerraRequest slashBody
      = .ok (some { Message := { ID := 1, ChatID := 42, Text := goStr "/help" } }) := rfl
  have h := spec_example_command exampleWorld { Body := slashBody } rfl hd
  ⟨hd, h.1, h.2.2.1⟩

/-- C10 as stated fails: a post answered `101 Switching Protocols` has a status outside
200..299, yet `sendReply` returns no error. -/
theorem sendReply_failure_rule_counterexample :
    switchingWorld.http [] (sendMsgRequest (goStr "T") 42 (goStr "hi") 1)
      = .ok { StatusCode := 101, Status := goStr "101 Switching Protocols", Body := [] } ∧
    ¬ ((sendReply switchingWorld 42 (goStr "hi") 1 []).1 ≠ none
        ↔ PostFailsNon2xx
            (switchingWorld.http [] (sendMsgRequest (goStr "T") 42 (goStr "hi") 1))) := by
  refine ⟨rfl, ?_⟩
  have h1 : (sendReply switchingWorld 42 (goStr "hi") 1 []).1 = none := by decide
  have h2 : PostFailsNon2xx
      (switchingWorld.http [] (sendMsgRequest (goStr "T") 42 (goStr "hi") 1)) := by
    simp [PostFailsNon2xx, switchingWorld]
  intro h
  exact (h.mpr h2) h1

/-- C10, amended: `sendReply` returns an error if and only if one of the posts it made
failed in transport or was answered with a status of 300 or above.  The posts it makes are
posts of its chunks; every post but the last made succeeded, so nothing is posted after a
failing chunk; and the error returned is the transport error of the last post, or the
text `failed to send reply tg message: ` followed by the status and the body of its
response. -/
theorem sendReply_failure_rule (w : World) (chatID replyToMsgID : Int) (text : GoString)
    (tr : Trace) :
    ∃ posts : List (HttpRequest × Except GoError HttpResponse),
      (sendReply w chatID text replyToMsgID tr).2
        = tr ++ posts.map (fun p => Event.http p.1 p.2) ∧
      (∀ p ∈ posts, ∃ chunk : GoString,
        p.1 = sendMsgRequest (w.getenv (goStr "TG_API_KEY")) chatID chunk replyToMsgID) ∧
      (∀ p ∈ posts.dropLast, ¬ PostFails p.2) ∧
      ((sendReply w chatID text replyToMsgID tr).1 ≠ none ↔ ∃ p ∈ posts, PostFails p.2) ∧
      (∀ err : GoError, (sendReply w chatID text replyToMsgID tr).1 = some err →
        ∃ p, posts.getLast? = some p ∧
          (p.2 = .error err ∨
            ∃ resp : HttpResponse, p.2 = .ok resp ∧ resp.StatusCode ≥ 300 ∧
              err = goStr "failed to send reply tg message: " ++ resp.Status ++ goStr " "
                ++ resp.Body)) := by
  simp only [sendReply]
  obtain ⟨posts, h1, h2, h3, h4, h5⟩ :=
    sendReplyLoop_failure_rule w (w.getenv (goStr "TG_API_KEY")) chatID replyToMsgID
      (if text.length > maxMessageLen then
        [text.take maxMessageLen, text.drop maxMessageLen] else [text]) tr
  refine ⟨posts, h1, ?_, h3, h4, h5⟩
  intro p hp
  obtain ⟨c, _, hc⟩ := h2 p hp
  exact ⟨c, hc⟩

/-- C11 as stated fails: the completion for `hi` is 4097 bytes long, the post of the first
chunk is answered `200 OK` and the post of the second chunk `429 Too Many Requests`.
`Handler` (index.go) returns an error although the first 4096 bytes were delivered. -/
theorem fatal_failure_counterexample :
    (Terra.Handler (halfSentWorld (List.replicate 4097 65)) { Body := [] }).1
      = Outcome.error (wrapError "failed to send reply"
          (goStr "failed to send reply tg message: 429 Too Many Requests retry later")) ∧
    deliveredMessages (Terra.Handler (halfSentWorld (List.replicate 4097 65)) { Body := [] }).2
      = [{ ChatId := 9, Text := List.replicate 4096 65, ReplyToMessageId := 3,
           ParseMode := goStr "Markdown" }] := by
  have h := halfSentWorld_run (List.replicate 4097 65) longText_length
  have ht : List.take 4096 (List.replicate 4097 (65 : UInt8)) = List.replicate 4096 65 := by
    rw [List.take_replicate]; rfl
  have ha : jsonString (List.replicate 4096 65) = List.replicate 4096 65 := by
    have := jsonString_ascii 4096 []
    rw [List.append_nil] at this
    rw [this]
    exact List.append_nil _
  rw [ht, ha] at h
  exact h

/-- C11, amended: if `Handler` (index.go) returns a non-nil error then no reply message
was successfully posted to the chat during that invocation, except when the error is a
send failure on the second chunk of a reply longer than 4096 bytes: then both chunks were
posted and exactly the first one (the first 4096 bytes, as `json.Marshal` writes them) was
delivered. -/
theorem fatal_failure_delivers_at_most_first_chunk (w : World) (event : APIGatewayRequest)
    (err : GoError) (h : (Terra.Handler w event).1 = Outcome.error err) :
    deliveredMessages (Terra.Handler w event).2 = [] ∨
    ∃ (e : GoError) (chatID replyToMsgID : Int) (text : GoString),
      err = wrapError "failed to send reply" e ∧
      text.length > 4096 ∧
      sentMessages (Terra.Handler w event).2
        = [{ ChatId := chatID, Text := jsonString (text.take 4096),
             ReplyToMessageId := replyToMsgID, ParseMode := goStr "Markdown" },
           { ChatId := chatID, Text := jsonString (text.drop 4096),
             ReplyToMessageId := replyToMsgID, ParseMode := goStr "Markdown" }] ∧
      deliveredMessages (Terra.Handler w event).2
        = [{ ChatId := chatID, Text := jsonString (text.take 4096),
             ReplyToMessageId := replyToMsgID, ParseMode := goStr "Markdown" }] := by
  rcases terra_handler_shape w event with hnil | ⟨chatID, replyToMsgID, text, pre, hpre, heq⟩
  · exact Or.inl (deliveredMessages_of_sentMessages_nil _ hnil)
  · rw [heq] at h ⊢
    rcases hs : sendReply w chatID text replyToMsgID pre with ⟨serr, tr⟩
    cases serr with
    | none =>
      rw [hs] at h
      simp at h
    | some e =>
      have herr : (sendReply w chatID text replyToMsgID pre).1 = some e := by rw [hs]
      have hd := sendReply_error_delivered w chatID replyToMsgID text pre e hpre herr
      rw [hs] at h hd
      simp only [Outcome.error.injEq] at h
      rcases hd with hd | ⟨hlen, hsent, hdel⟩
      · exact Or.inl hd
      · rw [chunkMessage_eq, chunkMessage_eq] at hsent
        rw [chunkMessage_eq] at hdel
        exact Or.inr ⟨e, chatID, replyToMsgID, text, h.symm, hlen, hsent, hdel⟩

/-- Witness of C11, amended: a body that does not parse (nothing is posted), and the run
in which the second chunk of a reply of 4097 bytes is refused. -/
theorem fatal_failure_delivers_at_most_first_chunk_witness :
    ((Terra.Handler calmWorld { Body := [] }).1
        = Outcome.error (wrapError "an error has occurred when parsing body"
            (goStr "unexpected end of JSON input")) ∧
      (deliveredMessages (Terra.Handler calmWorld { Body := [] }).2 = [] ∨
        ∃ (e : GoError) (chatID replyToMsgID : Int) (text : GoString),
          wrapError "an error has occurred when parsing body"
              (goStr "unexpected end of JSON input")
            = wrapError "failed to send reply" e ∧
          text.length > 4096 ∧
          sentMessages (Terra.Handler calmWorld { Body := [] }).2
            = [{ ChatId := chatID, Text := jsonString (text.take 4096),
                 ReplyToMessageId := replyToMsgID, ParseMode := goStr "Markdown" },
               { ChatId := chatID, Text := jsonString (text.drop 4096),
                 ReplyToMessageId := replyToMsgID, ParseMode := goStr "Markdown" }] ∧
          deliveredMessages (Terra.Handler calmWorld { Body := [] }).2
            = [{ ChatId := chatID, Text := jsonString (text.take 4096),
                 ReplyToMessageId := replyToMsgID, ParseMode := goStr "Markdown" }])) ∧
    ((Terra.Handler (halfSentWorld (List.replicate 4097 65)) { Body := [] }).1
        = Outcome.error (wrapError "failed to send reply"
            (goStr "failed to send reply tg message: 429 Too Many Requests retry later")) ∧
      (deliveredMessages
          (Terra.Handler (halfSentWorld (List.replicate 4097 65)) { Body := [] }).2 = [] ∨
        ∃ (e : GoError) (chatID replyToMsgID : Int) (text : GoString),
          wrapError "failed to send reply"
              (goStr "failed to send reply tg message: 429 Too Many Requests retry later")
            = wrapError "failed to send reply" e ∧
          text.length > 4096 ∧
          sentMessages (Terra.Handler (halfSentWorld (List.replicate 4097 65)) { Body := [] }).2
            = [{ ChatId := chatID, Text := jsonString (text.take 4096),
                 ReplyToMessageId := replyToMsgID, ParseMode := goStr "Markdown" },
               { ChatId := chatID, Text := jsonString (text.drop 4096),
                 ReplyToMessageId := replyToMsgID, ParseMode := goStr "Markdown" }] ∧
          deliveredMessages
              (Terra.Handler (halfSentWorld (List.replicate 4097 65)) { Body := [] }).2
            = [{ ChatId := chatID, Text := jsonString (text.take 4096),
                 ReplyToMessageId := replyToMsgID, ParseMode := goStr "Markdown" }])) :=
  have hrun := (halfSentWorld_run (List.replicate 4097 65) longText_length).1
  ⟨⟨rfl, fatal_failure_delivers_at_most_first_chunk calmWorld { Body := [] } _ rfl⟩,
    ⟨hrun, fatal_failure_delivers_at_most_first_chunk
      (halfSentWorld (List.replicate 4097 65)) { Body := [] } _ hrun⟩⟩
